import Mathlib

/-!
Verification development for the course repository
`ostadabbas/EECE-7398-Machine-Learning-with-Small-Data`.

The repository consists of Jupyter notebooks under `Exercises/`:
`interactive_cifar10.ipynb`, `interactive_pytorch_gpu.ipynb` (whose source
file holds two notebook JSON documents; the second one is the local-setup
notebook the README lists as `interactive_local_setup.ipynb`) and
`interactive_wandb_tutorial.ipynb`.

Two layers of embedding are used:

1. A statement-level deep embedding of every code cell of every notebook
   (`repoStmts`).  Each transcribed statement records the notebook, the code
   cell index (the cell's position in the notebook JSON, counting markdown
   cells, as the notebooks interleave markdown and code), the stack of
   enclosing constructs (function body, class body, loop body, if/else
   branch, try body, except handler, with block) and the statement shape.
   Conventions used in the transcribed source texts:
   - f-string interpolations are written with `<...>` instead of braces;
   - quotes inside Python string literals are dropped;
   - long instruction text blocks are abbreviated to `<... summary ...>`;
   - a statement's `Call` list records every function/method call occurring
     in it, with its keyword arguments where they carry structure.

2. Shallow functional models of the computational parts that the claims
   reason about: the `train_model` loop of the CIFAR-10 notebook (its
   logging behaviour), `evaluate_model`, the shape semantics of
   `CIFAR10Net.forward`, and `get_os_info` of the local-setup notebook.
-/

set_option maxHeartbeats 1000000
set_option maxRecDepth 4000

/-- A literal-ish value appearing as an argument of a transcribed call.
`raw` holds Python source text (code); `str` holds the contents of a Python
string literal (plain text, not code). -/
inductive KwVal where
  | num (n : Int)
  | str (s : String)
  | boolean (b : Bool)
  | raw (code : String)
deriving DecidableEq

/-- A function or method call occurring in a transcribed statement.
`callee` is the call target exactly as written in the source. -/
structure Call where
  callee : String
  args : List KwVal
  kwargs : List (String × KwVal)
deriving DecidableEq

/-- Call with no arguments recorded. -/
def pCall (f : String) : Call := ⟨f, [], []⟩

/-- Call with positional arguments. -/
def pCallA (f : String) (as : List KwVal) : Call := ⟨f, as, []⟩

/-- Call with positional and keyword arguments. -/
def pCallK (f : String) (as : List KwVal) (ks : List (String × KwVal)) : Call :=
  ⟨f, as, ks⟩

/-- The iteration domain of a transcribed `for` loop (or comprehension).
Every domain form occurring in this repository is finite:
`range` of any integer is a finite sequence, literal and locally built lists
are finite, the batches of a `DataLoader` over a downloaded (finite) dataset
form a finite iterable, as does `enumerate` or `zip` of such iterables. -/
inductive Dom where
  | rangeConst (n : Nat)
  | rangeExpr (src : String)
  | enumLoader (loader : String)
  | dataLoaderBatches (loader : String)
  | localList (name : String)
  | zipOf (src : String)
deriving DecidableEq

/-- Statement shapes of the transcribed Python code. -/
inductive PyStmt where
  | importMods (mods : List String)
  | assign (target : String) (src : String) (calls : List Call)
  | augAssign (target : String) (op : String) (src : String) (calls : List Call)
  | exprStmt (src : String) (calls : List Call)
  | forHeader (vars : String) (dom : Dom)
  | whileHeader (cond : String) (calls : List Call)
  | ifHeader (cond : String) (calls : List Call)
  | elifHeader (cond : String) (calls : List Call)
  | elseHeader
  | tryHeader
  | exceptHeader (exc : String) (bindVar : String)
  | withHeader (src : String) (calls : List Call)
  | funcHeader (name : String) (params : List String)
  | classHeader (name : String) (bases : List String)
  | compAssign (target : String) (vars : String) (dom : Dom) (src : String) (calls : List Call)
  | genExpr (vars : String) (dom : Dom) (src : String) (calls : List Call)
  | shellEscape (cmd : String)
  | ret (src : String) (calls : List Call)
  | delStmt (target : String)
deriving DecidableEq

/-- One frame of the syntactic context enclosing a transcribed statement. -/
inductive CtxF where
  | inFunc (name : String)
  | inClass (name : String)
  | inForCtx
  | inIfCtx
  | inElseCtx
  | inTryBody
  | inHandler
  | inWithCtx
deriving DecidableEq

/-- A transcribed statement together with its location in the repository. -/
structure SrcStmt where
  nb : String
  cell : Nat
  ctx : List CtxF
  st : PyStmt
deriving DecidableEq

/-- Tag every statement of one code cell with its notebook and cell index. -/
def mkCell (nb : String) (cell : Nat) (ss : List (List CtxF × PyStmt)) :
    List SrcStmt :=
  ss.map (fun p => ⟨nb, cell, p.1, p.2⟩)

def cifarNb : String := "interactive_cifar10.ipynb"

def gpuNb : String := "interactive_pytorch_gpu.ipynb"

/-- The second notebook JSON document stored inside the source file
`Exercises/interactive_pytorch_gpu.ipynb`; its contents are the local-setup
notebook that the README lists as `interactive_local_setup.ipynb`. -/
def setupNb : String := "interactive_local_setup.ipynb"

def wandbNb : String := "interactive_wandb_tutorial.ipynb"

/-- Code cell 2 of the CIFAR-10 notebook: imports, seeding, device, classes. -/
def cifarCell2 : List SrcStmt := mkCell cifarNb 2 [
  ([], .importMods ["torch"]),
  ([], .importMods ["torch.nn"]),
  ([], .importMods ["torch.optim"]),
  ([], .importMods ["torchvision"]),
  ([], .importMods ["torchvision.transforms"]),
  ([], .importMods ["matplotlib.pyplot"]),
  ([], .importMods ["numpy"]),
  ([], .importMods ["wandb"]),
  ([], .exprStmt "torch.manual_seed(42)" [pCallA "torch.manual_seed" [.num 42]]),
  ([], .ifHeader "torch.cuda.is_available()" [pCall "torch.cuda.is_available"]),
  ([.inIfCtx], .exprStmt "torch.cuda.manual_seed(42)" [pCallA "torch.cuda.manual_seed" [.num 42]]),
  ([], .assign "device" "torch.device(cuda if torch.cuda.is_available() else cpu)"
      [pCallA "torch.device" [.raw "cuda if torch.cuda.is_available() else cpu"],
       pCall "torch.cuda.is_available"]),
  ([], .exprStmt "print(f Using device: <device>)" [pCall "print"]),
  ([], .assign "classes" "(plane, car, bird, cat, deer, dog, frog, horse, ship, truck)" [])]

/-- Code cell 4 of the CIFAR-10 notebook: transforms, datasets, data loaders. -/
def cifarCell4 : List SrcStmt := mkCell cifarNb 4 [
  ([], .assign "transform_train" "transforms.Compose([RandomCrop, RandomHorizontalFlip, ToTensor, Normalize])"
      [pCallA "transforms.Compose" [.raw "train transform list"],
       pCallK "transforms.RandomCrop" [.num 32] [("padding", .num 4)],
       pCall "transforms.RandomHorizontalFlip",
       pCall "transforms.ToTensor",
       pCallA "transforms.Normalize" [.raw "(0.4914, 0.4822, 0.4465)", .raw "(0.2023, 0.1994, 0.2010)"]]),
  ([], .assign "transform_test" "transforms.Compose([ToTensor, Normalize])"
      [pCallA "transforms.Compose" [.raw "test transform list"],
       pCall "transforms.ToTensor",
       pCallA "transforms.Normalize" [.raw "(0.4914, 0.4822, 0.4465)", .raw "(0.2023, 0.1994, 0.2010)"]]),
  ([], .assign "trainset" "torchvision.datasets.CIFAR10(root=./data, train=True, download=True, transform=transform_train)"
      [pCallK "torchvision.datasets.CIFAR10" []
        [("root", .str "./data"), ("train", .boolean true), ("download", .boolean true),
         ("transform", .raw "transform_train")]]),
  ([], .assign "trainloader" "torch.utils.data.DataLoader(trainset, batch_size=128, shuffle=True, num_workers=2)"
      [pCallK "torch.utils.data.DataLoader" [.raw "trainset"]
        [("batch_size", .num 128), ("shuffle", .boolean true), ("num_workers", .num 2)]]),
  ([], .assign "testset" "torchvision.datasets.CIFAR10(root=./data, train=False, download=True, transform=transform_test)"
      [pCallK "torchvision.datasets.CIFAR10" []
        [("root", .str "./data"), ("train", .boolean false), ("download", .boolean true),
         ("transform", .raw "transform_test")]]),
  ([], .assign "testloader" "torch.utils.data.DataLoader(testset, batch_size=100, shuffle=False, num_workers=2)"
      [pCallK "torch.utils.data.DataLoader" [.raw "testset"]
        [("batch_size", .num 100), ("shuffle", .boolean false), ("num_workers", .num 2)]])]

/-- Code cell 6 of the CIFAR-10 notebook: `imshow` and a sample-image grid. -/
def cifarCell6 : List SrcStmt := mkCell cifarNb 6 [
  ([], .funcHeader "imshow" ["img"]),
  ([.inFunc "imshow"], .assign "img" "img / 2 + 0.5" []),
  ([.inFunc "imshow"], .assign "npimg" "img.numpy()" [pCall "img.numpy"]),
  ([.inFunc "imshow"], .exprStmt "plt.imshow(np.transpose(npimg, (1, 2, 0)))"
      [pCallA "plt.imshow" [.raw "np.transpose(npimg, (1, 2, 0))"],
       pCallA "np.transpose" [.raw "npimg", .raw "(1, 2, 0)"]]),
  ([], .assign "dataiter" "iter(trainloader)" [pCallA "iter" [.raw "trainloader"]]),
  ([], .assign "images, labels" "next(dataiter)" [pCallA "next" [.raw "dataiter"]]),
  ([], .exprStmt "plt.figure(figsize=(10, 10))" [pCallK "plt.figure" [] [("figsize", .raw "(10, 10)")]]),
  ([], .exprStmt "imshow(torchvision.utils.make_grid(images[:16]))"
      [pCallA "imshow" [.raw "torchvision.utils.make_grid(images[:16])"],
       pCallA "torchvision.utils.make_grid" [.raw "images[:16]"]]),
  ([], .exprStmt "plt.axis(off)" [pCallA "plt.axis" [.str "off"]]),
  ([], .genExpr "j" (.rangeConst 16) "print(space.join(f<classes[labels[j]]:5s> for j in range(16)))"
      [pCall "print", pCall ".join", pCallA "range" [.num 16]])]

/-- Code cell 8 of the CIFAR-10 notebook: the `CIFAR10Net` class, model,
loss, optimizer. -/
def cifarCell8 : List SrcStmt := mkCell cifarNb 8 [
  ([], .classHeader "CIFAR10Net" ["nn.Module"]),
  ([.inClass "CIFAR10Net"], .funcHeader "__init__" ["self"]),
  ([.inClass "CIFAR10Net", .inFunc "__init__"], .exprStmt "super(CIFAR10Net, self).__init__()"
      [pCallA "super" [.raw "CIFAR10Net", .raw "self"], pCall "super().__init__"]),
  ([.inClass "CIFAR10Net", .inFunc "__init__"], .assign "self.conv1" "nn.Conv2d(3, 32, 3, padding=1)"
      [pCallK "nn.Conv2d" [.num 3, .num 32, .num 3] [("padding", .num 1)]]),
  ([.inClass "CIFAR10Net", .inFunc "__init__"], .assign "self.conv2" "nn.Conv2d(32, 64, 3, padding=1)"
      [pCallK "nn.Conv2d" [.num 32, .num 64, .num 3] [("padding", .num 1)]]),
  ([.inClass "CIFAR10Net", .inFunc "__init__"], .assign "self.conv3" "nn.Conv2d(64, 128, 3, padding=1)"
      [pCallK "nn.Conv2d" [.num 64, .num 128, .num 3] [("padding", .num 1)]]),
  ([.inClass "CIFAR10Net", .inFunc "__init__"], .assign "self.pool" "nn.MaxPool2d(2, 2)"
      [pCallA "nn.MaxPool2d" [.num 2, .num 2]]),
  ([.inClass "CIFAR10Net", .inFunc "__init__"], .assign "self.fc1" "nn.Linear(128 * 4 * 4, 512)"
      [pCallA "nn.Linear" [.raw "128 * 4 * 4", .num 512]]),
  ([.inClass "CIFAR10Net", .inFunc "__init__"], .assign "self.fc2" "nn.Linear(512, 10)"
      [pCallA "nn.Linear" [.num 512, .num 10]]),
  ([.inClass "CIFAR10Net", .inFunc "__init__"], .assign "self.dropout" "nn.Dropout(0.25)"
      [pCallA "nn.Dropout" [.raw "0.25"]]),
  ([.inClass "CIFAR10Net", .inFunc "__init__"], .assign "self.batch_norm1" "nn.BatchNorm2d(32)"
      [pCallA "nn.BatchNorm2d" [.num 32]]),
  ([.inClass "CIFAR10Net", .inFunc "__init__"], .assign "self.batch_norm2" "nn.BatchNorm2d(64)"
      [pCallA "nn.BatchNorm2d" [.num 64]]),
  ([.inClass "CIFAR10Net", .inFunc "__init__"], .assign "self.batch_norm3" "nn.BatchNorm2d(128)"
      [pCallA "nn.BatchNorm2d" [.num 128]]),
  ([.inClass "CIFAR10Net"], .funcHeader "forward" ["self", "x"]),
  ([.inClass "CIFAR10Net", .inFunc "forward"], .assign "x" "self.pool(torch.relu(self.batch_norm1(self.conv1(x))))"
      [pCall "self.pool", pCall "torch.relu", pCall "self.batch_norm1", pCall "self.conv1"]),
  ([.inClass "CIFAR10Net", .inFunc "forward"], .assign "x" "self.pool(torch.relu(self.batch_norm2(self.conv2(x))))"
      [pCall "self.pool", pCall "torch.relu", pCall "self.batch_norm2", pCall "self.conv2"]),
  ([.inClass "CIFAR10Net", .inFunc "forward"], .assign "x" "self.pool(torch.relu(self.batch_norm3(self.conv3(x))))"
      [pCall "self.pool", pCall "torch.relu", pCall "self.batch_norm3", pCall "self.conv3"]),
  ([.inClass "CIFAR10Net", .inFunc "forward"], .assign "x" "x.view(-1, 128 * 4 * 4)"
      [pCallA "x.view" [.num (-1), .raw "128 * 4 * 4"]]),
  ([.inClass "CIFAR10Net", .inFunc "forward"], .assign "x" "self.dropout(torch.relu(self.fc1(x)))"
      [pCall "self.dropout", pCall "torch.relu", pCall "self.fc1"]),
  ([.inClass "CIFAR10Net", .inFunc "forward"], .assign "x" "self.fc2(x)" [pCall "self.fc2"]),
  ([.inClass "CIFAR10Net", .inFunc "forward"], .ret "x" []),
  ([], .assign "model" "CIFAR10Net().to(device)" [pCall "CIFAR10Net", pCallA ".to" [.raw "device"]]),
  ([], .assign "criterion" "nn.CrossEntropyLoss()" [pCall "nn.CrossEntropyLoss"]),
  ([], .assign "optimizer" "optim.Adam(model.parameters(), lr=0.001)"
      [pCallK "optim.Adam" [.raw "model.parameters()"] [("lr", .raw "0.001")], pCall "model.parameters"]),
  ([], .exprStmt "print(model)" [pCallA "print" [.raw "model"]])]

/-- Code cell 10 of the CIFAR-10 notebook: wandb init, `train_model`, and
the training run. -/
def cifarCell10 : List SrcStmt := mkCell cifarNb 10 [
  ([], .exprStmt "wandb.init(project=cifar10-interactive, config=...)"
      [pCallK "wandb.init" []
        [("project", .str "cifar10-interactive"),
         ("config", .raw "dict: learning_rate 0.001, epochs 10, batch_size 128, architecture CNN, dataset CIFAR-10")]]),
  ([], .funcHeader "train_model" ["epochs=10"]),
  ([.inFunc "train_model"], .forHeader "epoch" (.rangeExpr "epochs")),
  ([.inFunc "train_model", .inForCtx], .exprStmt "model.train()" [pCall "model.train"]),
  ([.inFunc "train_model", .inForCtx], .assign "running_loss" "0.0" []),
  ([.inFunc "train_model", .inForCtx], .assign "correct" "0" []),
  ([.inFunc "train_model", .inForCtx], .assign "total" "0" []),
  ([.inFunc "train_model", .inForCtx], .forHeader "i, data" (.enumLoader "trainloader")),
  ([.inFunc "train_model", .inForCtx, .inForCtx], .assign "inputs, labels" "data[0].to(device), data[1].to(device)"
      [pCallA "data[0].to" [.raw "device"], pCallA "data[1].to" [.raw "device"]]),
  ([.inFunc "train_model", .inForCtx, .inForCtx], .exprStmt "optimizer.zero_grad()" [pCall "optimizer.zero_grad"]),
  ([.inFunc "train_model", .inForCtx, .inForCtx], .assign "outputs" "model(inputs)" [pCallA "model" [.raw "inputs"]]),
  ([.inFunc "train_model", .inForCtx, .inForCtx], .assign "loss" "criterion(outputs, labels)"
      [pCallA "criterion" [.raw "outputs", .raw "labels"]]),
  ([.inFunc "train_model", .inForCtx, .inForCtx], .exprStmt "loss.backward()" [pCall "loss.backward"]),
  ([.inFunc "train_model", .inForCtx, .inForCtx], .exprStmt "optimizer.step()" [pCall "optimizer.step"]),
  ([.inFunc "train_model", .inForCtx, .inForCtx], .augAssign "running_loss" "+=" "loss.item()" [pCall "loss.item"]),
  ([.inFunc "train_model", .inForCtx, .inForCtx], .assign "_, predicted" "torch.max(outputs.data, 1)"
      [pCallA "torch.max" [.raw "outputs.data", .num 1]]),
  ([.inFunc "train_model", .inForCtx, .inForCtx], .augAssign "total" "+=" "labels.size(0)"
      [pCallA "labels.size" [.num 0]]),
  ([.inFunc "train_model", .inForCtx, .inForCtx], .augAssign "correct" "+=" "(predicted == labels).sum().item()"
      [pCall "(predicted == labels).sum", pCall ".item"]),
  ([.inFunc "train_model", .inForCtx, .inForCtx], .ifHeader "i % 100 == 99" []),
  ([.inFunc "train_model", .inForCtx, .inForCtx, .inIfCtx], .assign "accuracy" "100 * correct / total" []),
  ([.inFunc "train_model", .inForCtx, .inForCtx, .inIfCtx], .exprStmt "wandb.log(dict: epoch, loss, accuracy)"
      [pCallK "wandb.log" []
        [("epoch", .raw "epoch"), ("loss", .raw "running_loss / 100"), ("accuracy", .raw "accuracy")]]),
  ([.inFunc "train_model", .inForCtx, .inForCtx, .inIfCtx], .exprStmt "print(f [<epoch + 1>, <i + 1>] loss ..., accuracy ...)"
      [pCall "print"]),
  ([.inFunc "train_model", .inForCtx, .inForCtx, .inIfCtx], .assign "running_loss" "0.0" []),
  ([.inFunc "train_model", .inForCtx, .inForCtx, .inIfCtx], .assign "correct" "0" []),
  ([.inFunc "train_model", .inForCtx, .inForCtx, .inIfCtx], .assign "total" "0" []),
  ([.inFunc "train_model", .inForCtx], .assign "test_accuracy" "evaluate_model()" [pCall "evaluate_model"]),
  ([.inFunc "train_model", .inForCtx], .exprStmt "wandb.log(dict: test_accuracy)"
      [pCallK "wandb.log" [] [("test_accuracy", .raw "test_accuracy")]]),
  ([.inFunc "train_model", .inForCtx], .exprStmt "print(f Epoch <epoch + 1> Test Accuracy: <test_accuracy>)"
      [pCall "print"]),
  ([.inFunc "train_model"], .exprStmt "print(Finished Training)" [pCallA "print" [.str "Finished Training"]]),
  ([.inFunc "train_model"], .exprStmt "wandb.finish()" [pCall "wandb.finish"]),
  ([], .exprStmt "train_model()" [pCall "train_model"])]

/-- Code cell 12 of the CIFAR-10 notebook: `evaluate_model` and its call. -/
def cifarCell12 : List SrcStmt := mkCell cifarNb 12 [
  ([], .funcHeader "evaluate_model" []),
  ([.inFunc "evaluate_model"], .exprStmt "model.eval()" [pCall "model.eval"]),
  ([.inFunc "evaluate_model"], .assign "correct" "0" []),
  ([.inFunc "evaluate_model"], .assign "total" "0" []),
  ([.inFunc "evaluate_model"], .compAssign "class_correct" "i" (.rangeConst 10) "list(0. for i in range(10))"
      [pCall "list", pCallA "range" [.num 10]]),
  ([.inFunc "evaluate_model"], .compAssign "class_total" "i" (.rangeConst 10) "list(0. for i in range(10))"
      [pCall "list", pCallA "range" [.num 10]]),
  ([.inFunc "evaluate_model"], .withHeader "torch.no_grad()" [pCall "torch.no_grad"]),
  ([.inFunc "evaluate_model", .inWithCtx], .forHeader "data" (.dataLoaderBatches "testloader")),
  ([.inFunc "evaluate_model", .inWithCtx, .inForCtx], .assign "images, labels" "data[0].to(device), data[1].to(device)"
      [pCallA "data[0].to" [.raw "device"], pCallA "data[1].to" [.raw "device"]]),
  ([.inFunc "evaluate_model", .inWithCtx, .inForCtx], .assign "outputs" "model(images)" [pCallA "model" [.raw "images"]]),
  ([.inFunc "evaluate_model", .inWithCtx, .inForCtx], .assign "_, predicted" "torch.max(outputs.data, 1)"
      [pCallA "torch.max" [.raw "outputs.data", .num 1]]),
  ([.inFunc "evaluate_model", .inWithCtx, .inForCtx], .augAssign "total" "+=" "labels.size(0)"
      [pCallA "labels.size" [.num 0]]),
  ([.inFunc "evaluate_model", .inWithCtx, .inForCtx], .augAssign "correct" "+=" "(predicted == labels).sum().item()"
      [pCall "(predicted == labels).sum", pCall ".item"]),
  ([.inFunc "evaluate_model", .inWithCtx, .inForCtx], .assign "c" "(predicted == labels).squeeze()"
      [pCall "(predicted == labels).squeeze"]),
  ([.inFunc "evaluate_model", .inWithCtx, .inForCtx], .forHeader "i" (.rangeExpr "len(labels)")),
  ([.inFunc "evaluate_model", .inWithCtx, .inForCtx, .inForCtx], .assign "label" "labels[i]" []),
  ([.inFunc "evaluate_model", .inWithCtx, .inForCtx, .inForCtx], .augAssign "class_correct[label]" "+=" "c[i].item()"
      [pCall "c[i].item"]),
  ([.inFunc "evaluate_model", .inWithCtx, .inForCtx, .inForCtx], .augAssign "class_total[label]" "+=" "1" []),
  ([.inFunc "evaluate_model"], .forHeader "i" (.rangeConst 10)),
  ([.inFunc "evaluate_model", .inForCtx], .exprStmt "print(f Accuracy of <classes[i]>: <100 * class_correct[i] / class_total[i]>)"
      [pCall "print"]),
  ([.inFunc "evaluate_model"], .ret "100 * correct / total" []),
  ([], .exprStmt "print(Overall Test Accuracy: ... .format(evaluate_model()))"
      [pCall "print", pCall ".format", pCall "evaluate_model"])]

/-- Code cell 14 of the CIFAR-10 notebook: `visualize_predictions` and its
call. -/
def cifarCell14 : List SrcStmt := mkCell cifarNb 14 [
  ([], .funcHeader "visualize_predictions" ["num_images=5"]),
  ([.inFunc "visualize_predictions"], .exprStmt "model.eval()" [pCall "model.eval"]),
  ([.inFunc "visualize_predictions"], .assign "dataiter" "iter(testloader)" [pCallA "iter" [.raw "testloader"]]),
  ([.inFunc "visualize_predictions"], .assign "images, labels" "next(dataiter)" [pCallA "next" [.raw "dataiter"]]),
  ([.inFunc "visualize_predictions"], .assign "outputs" "model(images[:num_images].to(device))"
      [pCallA "model" [.raw "images[:num_images].to(device)"], pCallA "images[:num_images].to" [.raw "device"]]),
  ([.inFunc "visualize_predictions"], .assign "_, predicted" "torch.max(outputs, 1)"
      [pCallA "torch.max" [.raw "outputs", .num 1]]),
  ([.inFunc "visualize_predictions"], .assign "fig" "plt.figure(figsize=(15, 3))"
      [pCallK "plt.figure" [] [("figsize", .raw "(15, 3)")]]),
  ([.inFunc "visualize_predictions"], .forHeader "idx" (.rangeExpr "num_images")),
  ([.inFunc "visualize_predictions", .inForCtx], .assign "ax" "fig.add_subplot(1, num_images, idx + 1, xticks=[], yticks=[])"
      [pCallK "fig.add_subplot" [.num 1, .raw "num_images", .raw "idx + 1"]
        [("xticks", .raw "[]"), ("yticks", .raw "[]")]]),
  ([.inFunc "visualize_predictions", .inForCtx], .exprStmt "imshow(images[idx])" [pCallA "imshow" [.raw "images[idx]"]]),
  ([.inFunc "visualize_predictions", .inForCtx], .exprStmt "ax.set_title(f Pred: <classes[predicted[idx]]>)"
      [pCall "ax.set_title"]),
  ([.inFunc "visualize_predictions", .inForCtx], .ifHeader "predicted[idx] == labels[idx]" []),
  ([.inFunc "visualize_predictions", .inForCtx, .inIfCtx], .exprStmt "plt.setp(ax.spines.values(), color=green, linewidth=2)"
      [pCallK "plt.setp" [.raw "ax.spines.values()"] [("color", .str "green"), ("linewidth", .num 2)],
       pCall "ax.spines.values"]),
  ([.inFunc "visualize_predictions", .inForCtx], .elseHeader),
  ([.inFunc "visualize_predictions", .inForCtx, .inElseCtx], .exprStmt "plt.setp(ax.spines.values(), color=red, linewidth=2)"
      [pCallK "plt.setp" [.raw "ax.spines.values()"] [("color", .str "red"), ("linewidth", .num 2)],
       pCall "ax.spines.values"]),
  ([.inFunc "visualize_predictions", .inForCtx, .inElseCtx], .exprStmt "ax.set_title(f Pred and True labels, color=red)"
      [pCallK "ax.set_title" [.raw "f-string with predicted and true class names"] [("color", .str "red")]]),
  ([.inFunc "visualize_predictions"], .exprStmt "plt.tight_layout()" [pCall "plt.tight_layout"]),
  ([.inFunc "visualize_predictions"], .exprStmt "plt.show()" [pCall "plt.show"]),
  ([], .exprStmt "visualize_predictions()" [pCall "visualize_predictions"])]

/-- All transcribed statements of the CIFAR-10 notebook, in source order. -/
def cifarStmts : List SrcStmt :=
  cifarCell2 ++ cifarCell4 ++ cifarCell6 ++ cifarCell8 ++ cifarCell10 ++ cifarCell12 ++ cifarCell14

/-- Code cell 2 of the GPU tutorial notebook: `check_gpu_availability`. -/
def gpuCell2 : List SrcStmt := mkCell gpuNb 2 [
  ([], .importMods ["torch"]),
  ([], .importMods ["sys"]),
  ([], .importMods ["platform"]),
  ([], .funcHeader "check_gpu_availability" []),
  ([.inFunc "check_gpu_availability"], .exprStmt "print(f PyTorch version: <torch.__version__>)" [pCall "print"]),
  ([.inFunc "check_gpu_availability"], .exprStmt "print(f Python version: <sys.version.split()[0]>)"
      [pCall "print", pCall "sys.version.split"]),
  ([.inFunc "check_gpu_availability"], .exprStmt "print(f Operating System: <platform.system()> <platform.version()>)"
      [pCall "print", pCall "platform.system", pCall "platform.version"]),
  ([.inFunc "check_gpu_availability"], .ifHeader "torch.cuda.is_available()" [pCall "torch.cuda.is_available"]),
  ([.inFunc "check_gpu_availability", .inIfCtx], .exprStmt "print(CUDA is available!)"
      [pCallA "print" [.str "CUDA is available!"]]),
  ([.inFunc "check_gpu_availability", .inIfCtx], .exprStmt "print(f CUDA version: <torch.version.cuda>)" [pCall "print"]),
  ([.inFunc "check_gpu_availability", .inIfCtx], .exprStmt "print(f GPU device: <torch.cuda.get_device_name(0)>)"
      [pCall "print", pCallA "torch.cuda.get_device_name" [.num 0]]),
  ([.inFunc "check_gpu_availability", .inIfCtx], .exprStmt "print(f Number of GPUs: <torch.cuda.device_count()>)"
      [pCall "print", pCall "torch.cuda.device_count"]),
  ([.inFunc "check_gpu_availability", .inIfCtx], .assign "memory_allocated" "torch.cuda.memory_allocated(0)"
      [pCallA "torch.cuda.memory_allocated" [.num 0]]),
  ([.inFunc "check_gpu_availability", .inIfCtx], .assign "memory_reserved" "torch.cuda.memory_reserved(0)"
      [pCallA "torch.cuda.memory_reserved" [.num 0]]),
  ([.inFunc "check_gpu_availability", .inIfCtx], .exprStmt "print(f GPU Memory:)" [pCall "print"]),
  ([.inFunc "check_gpu_availability", .inIfCtx], .exprStmt "print(f - Allocated: <memory_allocated/1024**2> MB)"
      [pCall "print"]),
  ([.inFunc "check_gpu_availability", .inIfCtx], .exprStmt "print(f - Reserved: <memory_reserved/1024**2> MB)"
      [pCall "print"]),
  ([.inFunc "check_gpu_availability"], .elseHeader),
  ([.inFunc "check_gpu_availability", .inElseCtx], .exprStmt "print(CUDA is not available. Running on CPU only.)"
      [pCall "print"]),
  ([], .exprStmt "check_gpu_availability()" [pCall "check_gpu_availability"])]

/-- Code cell 4 of the GPU tutorial notebook: `demonstrate_gpu_operations`. -/
def gpuCell4 : List SrcStmt := mkCell gpuNb 4 [
  ([], .funcHeader "demonstrate_gpu_operations" []),
  ([.inFunc "demonstrate_gpu_operations"], .assign "cpu_tensor" "torch.randn(1000, 1000)"
      [pCallA "torch.randn" [.num 1000, .num 1000]]),
  ([.inFunc "demonstrate_gpu_operations"], .exprStmt "print(1. Creating tensors:)" [pCall "print"]),
  ([.inFunc "demonstrate_gpu_operations"], .exprStmt "print(f CPU tensor device: <cpu_tensor.device>)" [pCall "print"]),
  ([.inFunc "demonstrate_gpu_operations"], .ifHeader "torch.cuda.is_available()" [pCall "torch.cuda.is_available"]),
  ([.inFunc "demonstrate_gpu_operations", .inIfCtx], .assign "gpu_tensor" "cpu_tensor.cuda()" [pCall "cpu_tensor.cuda"]),
  ([.inFunc "demonstrate_gpu_operations", .inIfCtx], .exprStmt "print(f GPU tensor device: <gpu_tensor.device>)"
      [pCall "print"]),
  ([.inFunc "demonstrate_gpu_operations", .inIfCtx], .assign "direct_gpu_tensor" "torch.randn(1000, 1000, device=cuda)"
      [pCallK "torch.randn" [.num 1000, .num 1000] [("device", .str "cuda")]]),
  ([.inFunc "demonstrate_gpu_operations", .inIfCtx], .exprStmt "print(f Direct GPU tensor device: <direct_gpu_tensor.device>)"
      [pCall "print"]),
  ([.inFunc "demonstrate_gpu_operations", .inIfCtx], .exprStmt "print(2. Basic operations on GPU:)" [pCall "print"]),
  ([.inFunc "demonstrate_gpu_operations", .inIfCtx], .assign "result" "gpu_tensor @ direct_gpu_tensor" []),
  ([.inFunc "demonstrate_gpu_operations", .inIfCtx], .exprStmt "print(f Matrix multiplication result device: <result.device>)"
      [pCall "print"]),
  ([.inFunc "demonstrate_gpu_operations", .inIfCtx], .exprStmt "print(3. Moving back to CPU:)" [pCall "print"]),
  ([.inFunc "demonstrate_gpu_operations", .inIfCtx], .assign "cpu_result" "result.cpu()" [pCall "result.cpu"]),
  ([.inFunc "demonstrate_gpu_operations", .inIfCtx], .exprStmt "print(f Result moved back to CPU device: <cpu_result.device>)"
      [pCall "print"]),
  ([.inFunc "demonstrate_gpu_operations"], .elseHeader),
  ([.inFunc "demonstrate_gpu_operations", .inElseCtx], .exprStmt "print(GPU operations not available)" [pCall "print"]),
  ([], .exprStmt "demonstrate_gpu_operations()" [pCall "demonstrate_gpu_operations"])]

/-- Code cell 6 of the GPU tutorial notebook: `benchmark_operations`. -/
def gpuCell6 : List SrcStmt := mkCell gpuNb 6 [
  ([], .importMods ["time"]),
  ([], .importMods ["numpy"]),
  ([], .funcHeader "benchmark_operations" []),
  ([.inFunc "benchmark_operations"], .assign "sizes" "[1000, 2000, 4000]" []),
  ([.inFunc "benchmark_operations"], .assign "results" "[]" []),
  ([.inFunc "benchmark_operations"], .forHeader "size" (.localList "sizes")),
  ([.inFunc "benchmark_operations", .inForCtx], .assign "a_cpu" "torch.randn(size, size)"
      [pCallA "torch.randn" [.raw "size", .raw "size"]]),
  ([.inFunc "benchmark_operations", .inForCtx], .assign "b_cpu" "torch.randn(size, size)"
      [pCallA "torch.randn" [.raw "size", .raw "size"]]),
  ([.inFunc "benchmark_operations", .inForCtx], .assign "start_time" "time.time()" [pCall "time.time"]),
  ([.inFunc "benchmark_operations", .inForCtx], .assign "_" "torch.matmul(a_cpu, b_cpu)"
      [pCallA "torch.matmul" [.raw "a_cpu", .raw "b_cpu"]]),
  ([.inFunc "benchmark_operations", .inForCtx], .assign "cpu_time" "time.time() - start_time" [pCall "time.time"]),
  ([.inFunc "benchmark_operations", .inForCtx], .ifHeader "torch.cuda.is_available()" [pCall "torch.cuda.is_available"]),
  ([.inFunc "benchmark_operations", .inForCtx, .inIfCtx], .assign "a_gpu" "a_cpu.cuda()" [pCall "a_cpu.cuda"]),
  ([.inFunc "benchmark_operations", .inForCtx, .inIfCtx], .assign "b_gpu" "b_cpu.cuda()" [pCall "b_cpu.cuda"]),
  ([.inFunc "benchmark_operations", .inForCtx, .inIfCtx], .assign "_" "torch.matmul(a_gpu, b_gpu)"
      [pCallA "torch.matmul" [.raw "a_gpu", .raw "b_gpu"]]),
  ([.inFunc "benchmark_operations", .inForCtx, .inIfCtx], .exprStmt "torch.cuda.synchronize()"
      [pCall "torch.cuda.synchronize"]),
  ([.inFunc "benchmark_operations", .inForCtx, .inIfCtx], .assign "start_time" "time.time()" [pCall "time.time"]),
  ([.inFunc "benchmark_operations", .inForCtx, .inIfCtx], .assign "_" "torch.matmul(a_gpu, b_gpu)"
      [pCallA "torch.matmul" [.raw "a_gpu", .raw "b_gpu"]]),
  ([.inFunc "benchmark_operations", .inForCtx, .inIfCtx], .exprStmt "torch.cuda.synchronize()"
      [pCall "torch.cuda.synchronize"]),
  ([.inFunc "benchmark_operations", .inForCtx, .inIfCtx], .assign "gpu_time" "time.time() - start_time" [pCall "time.time"]),
  ([.inFunc "benchmark_operations", .inForCtx], .elseHeader),
  ([.inFunc "benchmark_operations", .inForCtx, .inElseCtx], .assign "gpu_time" "float(nan)" [pCallA "float" [.str "nan"]]),
  ([.inFunc "benchmark_operations", .inForCtx], .exprStmt "results.append(dict: size, cpu_time, gpu_time, speedup)"
      [pCallK "results.append" []
        [("size", .raw "size"), ("cpu_time", .raw "cpu_time"), ("gpu_time", .raw "gpu_time"),
         ("speedup", .raw "cpu_time/gpu_time if gpu_time > 0 else float(nan)")],
       pCallA "float" [.str "nan"]]),
  ([.inFunc "benchmark_operations"], .exprStmt "print(Matrix Multiplication Performance Comparison:)" [pCall "print"]),
  ([.inFunc "benchmark_operations"], .exprStmt "print(column header line Size CPU GPU Speedup)" [pCall "print"]),
  ([.inFunc "benchmark_operations"], .exprStmt "print(dash character times 60)" [pCall "print"]),
  ([.inFunc "benchmark_operations"], .forHeader "r" (.localList "results")),
  ([.inFunc "benchmark_operations", .inForCtx], .exprStmt "print(f <size>x<size> <cpu_time> <gpu_time> <speedup>x)"
      [pCall "print"]),
  ([], .exprStmt "benchmark_operations()" [pCall "benchmark_operations"])]

/-- Code cell 8 of the GPU tutorial notebook: `demonstrate_memory_management`. -/
def gpuCell8 : List SrcStmt := mkCell gpuNb 8 [
  ([], .funcHeader "demonstrate_memory_management" []),
  ([.inFunc "demonstrate_memory_management"], .ifHeader "not torch.cuda.is_available()" [pCall "torch.cuda.is_available"]),
  ([.inFunc "demonstrate_memory_management", .inIfCtx], .exprStmt "print(GPU not available)" [pCall "print"]),
  ([.inFunc "demonstrate_memory_management", .inIfCtx], .ret "" []),
  ([.inFunc "demonstrate_memory_management"], .exprStmt "print(Initial GPU Memory Usage:)" [pCall "print"]),
  ([.inFunc "demonstrate_memory_management"], .exprStmt "print(f Allocated: <torch.cuda.memory_allocated()/1024**2> MB)"
      [pCall "print", pCall "torch.cuda.memory_allocated"]),
  ([.inFunc "demonstrate_memory_management"], .exprStmt "print(f Cached: <torch.cuda.memory_reserved()/1024**2> MB)"
      [pCall "print", pCall "torch.cuda.memory_reserved"]),
  ([.inFunc "demonstrate_memory_management"], .assign "tensors" "[]" []),
  ([.inFunc "demonstrate_memory_management"], .forHeader "i" (.rangeConst 5)),
  ([.inFunc "demonstrate_memory_management", .inForCtx], .exprStmt "tensors.append(torch.randn(1000, 1000, device=cuda))"
      [pCallA "tensors.append" [.raw "torch.randn(1000, 1000, device=cuda)"],
       pCallK "torch.randn" [.num 1000, .num 1000] [("device", .str "cuda")]]),
  ([.inFunc "demonstrate_memory_management", .inForCtx], .exprStmt "print(f After creating tensor <i+1>:)" [pCall "print"]),
  ([.inFunc "demonstrate_memory_management", .inForCtx], .exprStmt "print(f Allocated: <torch.cuda.memory_allocated()/1024**2> MB)"
      [pCall "print", pCall "torch.cuda.memory_allocated"]),
  ([.inFunc "demonstrate_memory_management", .inForCtx], .exprStmt "print(f Cached: <torch.cuda.memory_reserved()/1024**2> MB)"
      [pCall "print", pCall "torch.cuda.memory_reserved"]),
  ([.inFunc "demonstrate_memory_management"], .exprStmt "print(Clearing tensors...)" [pCall "print"]),
  ([.inFunc "demonstrate_memory_management"], .delStmt "tensors"),
  ([.inFunc "demonstrate_memory_management"], .exprStmt "torch.cuda.empty_cache()" [pCall "torch.cuda.empty_cache"]),
  ([.inFunc "demonstrate_memory_management"], .exprStmt "print(Final GPU Memory Usage:)" [pCall "print"]),
  ([.inFunc "demonstrate_memory_management"], .exprStmt "print(f Allocated: <torch.cuda.memory_allocated()/1024**2> MB)"
      [pCall "print", pCall "torch.cuda.memory_allocated"]),
  ([.inFunc "demonstrate_memory_management"], .exprStmt "print(f Cached: <torch.cuda.memory_reserved()/1024**2> MB)"
      [pCall "print", pCall "torch.cuda.memory_reserved"]),
  ([], .exprStmt "demonstrate_memory_management()" [pCall "demonstrate_memory_management"])]

/-- Code cell 10 of the GPU tutorial notebook: `check_multi_gpu`. -/
def gpuCell10 : List SrcStmt := mkCell gpuNb 10 [
  ([], .funcHeader "check_multi_gpu" []),
  ([.inFunc "check_multi_gpu"], .ifHeader "not torch.cuda.is_available()" [pCall "torch.cuda.is_available"]),
  ([.inFunc "check_multi_gpu", .inIfCtx], .exprStmt "print(GPU not available)" [pCall "print"]),
  ([.inFunc "check_multi_gpu", .inIfCtx], .ret "" []),
  ([.inFunc "check_multi_gpu"], .assign "num_gpus" "torch.cuda.device_count()" [pCall "torch.cuda.device_count"]),
  ([.inFunc "check_multi_gpu"], .exprStmt "print(f Number of GPUs available: <num_gpus>)" [pCall "print"]),
  ([.inFunc "check_multi_gpu"], .ifHeader "num_gpus > 1" []),
  ([.inFunc "check_multi_gpu", .inIfCtx], .exprStmt "print(GPU Details:)" [pCall "print"]),
  ([.inFunc "check_multi_gpu", .inIfCtx], .forHeader "i" (.rangeExpr "num_gpus")),
  ([.inFunc "check_multi_gpu", .inIfCtx, .inForCtx], .exprStmt "print(f GPU <i>:)" [pCall "print"]),
  ([.inFunc "check_multi_gpu", .inIfCtx, .inForCtx], .exprStmt "print(f Name: <torch.cuda.get_device_name(i)>)"
      [pCall "print", pCallA "torch.cuda.get_device_name" [.raw "i"]]),
  ([.inFunc "check_multi_gpu", .inIfCtx, .inForCtx], .exprStmt "print(f Memory Allocated: <torch.cuda.memory_allocated(i)/1024**2> MB)"
      [pCall "print", pCallA "torch.cuda.memory_allocated" [.raw "i"]]),
  ([.inFunc "check_multi_gpu", .inIfCtx, .inForCtx], .exprStmt "print(f Memory Cached: <torch.cuda.memory_reserved(i)/1024**2> MB)"
      [pCall "print", pCallA "torch.cuda.memory_reserved" [.raw "i"]]),
  ([.inFunc "check_multi_gpu", .inIfCtx], .assign "model" "torch.nn.Linear(100, 10)"
      [pCallA "torch.nn.Linear" [.num 100, .num 10]]),
  ([.inFunc "check_multi_gpu", .inIfCtx], .assign "model" "torch.nn.DataParallel(model)"
      [pCallA "torch.nn.DataParallel" [.raw "model"]]),
  ([.inFunc "check_multi_gpu", .inIfCtx], .exprStmt "print(f Model using DataParallel: <model.device_ids>)" [pCall "print"]),
  ([.inFunc "check_multi_gpu"], .elseHeader),
  ([.inFunc "check_multi_gpu", .inElseCtx], .exprStmt "print(Multi-GPU training not available (only one GPU detected))"
      [pCall "print"]),
  ([], .exprStmt "check_multi_gpu()" [pCall "check_multi_gpu"])]

/-- All transcribed statements of the GPU tutorial notebook, in source order. -/
def gpuStmts : List SrcStmt := gpuCell2 ++ gpuCell4 ++ gpuCell6 ++ gpuCell8 ++ gpuCell10

/-- Code cell 2 of the local-setup notebook: `get_os_info`. -/
def setupCell2 : List SrcStmt := mkCell setupNb 2 [
  ([], .importMods ["platform"]),
  ([], .importMods ["sys"]),
  ([], .funcHeader "get_os_info" []),
  ([.inFunc "get_os_info"], .assign "os_name" "platform.system()" [pCall "platform.system"]),
  ([.inFunc "get_os_info"], .ifHeader "os_name == Darwin" []),
  ([.inFunc "get_os_info", .inIfCtx], .ret "(MacOS, platform.mac_ver()[0])" [pCall "platform.mac_ver"]),
  ([.inFunc "get_os_info"], .elifHeader "os_name == Windows" []),
  ([.inFunc "get_os_info", .inIfCtx], .ret "(Windows, platform.win32_ver()[0])" [pCall "platform.win32_ver"]),
  ([.inFunc "get_os_info"], .elifHeader "os_name == Linux" []),
  ([.inFunc "get_os_info", .inIfCtx], .ret "(Linux, platform.linux_distribution()[0] if hasattr(platform, linux_distribution) else Unknown)"
      [pCall "platform.linux_distribution", pCallA "hasattr" [.raw "platform", .str "linux_distribution"]]),
  ([.inFunc "get_os_info"], .ret "(Unknown, Unknown)" []),
  ([], .assign "os_name, os_version" "get_os_info()" [pCall "get_os_info"]),
  ([], .exprStmt "print(f Detected Operating System: <os_name> (Version: <os_version>))" [pCall "print"]),
  ([], .exprStmt "print(f Python Version: <sys.version>)" [pCall "print"])]

/-- Code cell 4 of the local-setup notebook: `show_conda_instructions`. -/
def setupCell4 : List SrcStmt := mkCell setupNb 4 [
  ([], .funcHeader "show_conda_instructions" []),
  ([.inFunc "show_conda_instructions"], .assign "os_name, _" "get_os_info()" [pCall "get_os_info"]),
  ([.inFunc "show_conda_instructions"], .assign "instructions"
      "dict: Windows / MacOS / Linux -> <Miniconda installation steps text block>" []),
  ([.inFunc "show_conda_instructions"], .ret "instructions.get(os_name, <pointer to the Miniconda documentation>)"
      [pCallA "instructions.get" [.raw "os_name", .str "<pointer to the Miniconda documentation>"]]),
  ([], .exprStmt "print(show_conda_instructions())" [pCall "print", pCall "show_conda_instructions"])]

/-- Code cell 6 of the local-setup notebook: `show_environment_setup`. -/
def setupCell6 : List SrcStmt := mkCell setupNb 6 [
  ([], .funcHeader "show_environment_setup" []),
  ([.inFunc "show_environment_setup"], .exprStmt "print(<conda create and conda activate instructions text block>)"
      [pCall "print"]),
  ([], .exprStmt "show_environment_setup()" [pCall "show_environment_setup"])]

/-- Code cell 8 of the local-setup notebook: `show_package_installation`. -/
def setupCell8 : List SrcStmt := mkCell setupNb 8 [
  ([], .funcHeader "show_package_installation" []),
  ([.inFunc "show_package_installation"], .assign "os_name, _" "get_os_info()" [pCall "get_os_info"]),
  ([.inFunc "show_package_installation"], .exprStmt "print(First, lets check if you have a NVIDIA GPU available...)"
      [pCall "print"]),
  ([.inFunc "show_package_installation"], .ifHeader "os_name == Windows" []),
  ([.inFunc "show_package_installation", .inIfCtx], .exprStmt "print(<how to check for a NVIDIA GPU on Windows>)"
      [pCall "print"]),
  ([.inFunc "show_package_installation"], .elseHeader),
  ([.inFunc "show_package_installation", .inElseCtx], .exprStmt "print(<how to check for a NVIDIA GPU on Linux/MacOS>)"
      [pCall "print"]),
  ([.inFunc "show_package_installation"], .exprStmt "print(<conda install commands for GPU and CPU-only setups>)"
      [pCall "print"]),
  ([], .exprStmt "show_package_installation()" [pCall "show_package_installation"])]

/-- Code cell 10 of the local-setup notebook: `verify_setup` with its
try/except around package imports. -/
def setupCell10 : List SrcStmt := mkCell setupNb 10 [
  ([], .funcHeader "verify_setup" []),
  ([.inFunc "verify_setup"], .tryHeader),
  ([.inFunc "verify_setup", .inTryBody], .importMods ["torch"]),
  ([.inFunc "verify_setup", .inTryBody], .importMods ["torchvision"]),
  ([.inFunc "verify_setup", .inTryBody], .importMods ["matplotlib"]),
  ([.inFunc "verify_setup", .inTryBody], .importMods ["pandas"]),
  ([.inFunc "verify_setup", .inTryBody], .importMods ["sklearn"]),
  ([.inFunc "verify_setup", .inTryBody], .importMods ["wandb"]),
  ([.inFunc "verify_setup", .inTryBody], .exprStmt "print(All required packages are installed!)"
      [pCallA "print" [.str "All required packages are installed!"]]),
  ([.inFunc "verify_setup", .inTryBody], .exprStmt "print(f PyTorch version: <torch.__version__>)" [pCall "print"]),
  ([.inFunc "verify_setup", .inTryBody], .exprStmt "print(f CUDA available: <torch.cuda.is_available()>)"
      [pCall "print", pCall "torch.cuda.is_available"]),
  ([.inFunc "verify_setup", .inTryBody], .ifHeader "torch.cuda.is_available()" [pCall "torch.cuda.is_available"]),
  ([.inFunc "verify_setup", .inTryBody, .inIfCtx], .exprStmt "print(f CUDA version: <torch.version.cuda>)" [pCall "print"]),
  ([.inFunc "verify_setup", .inTryBody, .inIfCtx], .exprStmt "print(f GPU device: <torch.cuda.get_device_name(0)>)"
      [pCall "print", pCallA "torch.cuda.get_device_name" [.num 0]]),
  ([.inFunc "verify_setup"], .exceptHeader "ImportError" "e"),
  ([.inFunc "verify_setup", .inHandler], .exprStmt "print(f Some packages are missing: <str(e)>)"
      [pCall "print", pCallA "str" [.raw "e"]]),
  ([.inFunc "verify_setup", .inHandler], .exprStmt "print(Please follow the installation instructions above.)"
      [pCallA "print" [.str "Please follow the installation instructions above."]]),
  ([], .exprStmt "verify_setup()" [pCall "verify_setup"])]

/-- Code cell 12 of the local-setup notebook: `show_troubleshooting`. -/
def setupCell12 : List SrcStmt := mkCell setupNb 12 [
  ([], .funcHeader "show_troubleshooting" []),
  ([.inFunc "show_troubleshooting"], .assign "os_name, _" "get_os_info()" [pCall "get_os_info"]),
  ([.inFunc "show_troubleshooting"], .assign "common_issues"
      "dict: Windows / MacOS / Linux -> <common issues text block>" []),
  ([.inFunc "show_troubleshooting"], .exprStmt "print(common_issues.get(os_name, <pointer to the Conda documentation>))"
      [pCall "print", pCallA "common_issues.get" [.raw "os_name", .str "<pointer to the Conda documentation>"]]),
  ([.inFunc "show_troubleshooting"], .exprStmt "print(<general troubleshooting text block>)" [pCall "print"]),
  ([], .exprStmt "show_troubleshooting()" [pCall "show_troubleshooting"])]

/-- All transcribed statements of the local-setup notebook, in source order. -/
def setupStmts : List SrcStmt :=
  setupCell2 ++ setupCell4 ++ setupCell6 ++ setupCell8 ++ setupCell10 ++ setupCell12

/-- Code cell 2 of the W&B tutorial notebook: `check_wandb_installation`
with its try/except around the wandb package import, including the shell
escape that runs pip inside the except handler. -/
def wandbCell2 : List SrcStmt := mkCell wandbNb 2 [
  ([], .funcHeader "check_wandb_installation" []),
  ([.inFunc "check_wandb_installation"], .tryHeader),
  ([.inFunc "check_wandb_installation", .inTryBody], .importMods ["wandb"]),
  ([.inFunc "check_wandb_installation", .inTryBody], .exprStmt "print(f W&B is installed (version <wandb.__version__>))"
      [pCall "print"]),
  ([.inFunc "check_wandb_installation", .inTryBody], .ret "True" []),
  ([.inFunc "check_wandb_installation"], .exceptHeader "ImportError" ""),
  ([.inFunc "check_wandb_installation", .inHandler], .exprStmt "print(W&B is not installed. Installing now...)"
      [pCallA "print" [.str "W&B is not installed. Installing now..."]]),
  ([.inFunc "check_wandb_installation", .inHandler], .shellEscape "pip install wandb -q"),
  ([.inFunc "check_wandb_installation", .inHandler], .ret "False" []),
  ([], .exprStmt "check_wandb_installation()" [pCall "check_wandb_installation"])]

/-- Code cell 4 of the W&B tutorial notebook: wandb login. -/
def wandbCell4 : List SrcStmt := mkCell wandbNb 4 [
  ([], .importMods ["wandb"]),
  ([], .exprStmt "wandb.login()" [pCall "wandb.login"])]

/-- Code cell 6 of the W&B tutorial notebook: synthetic data, linear model,
basic tracking loop. -/
def wandbCell6 : List SrcStmt := mkCell wandbNb 6 [
  ([], .importMods ["numpy"]),
  ([], .importMods ["torch"]),
  ([], .importMods ["torch.nn"]),
  ([], .importMods ["torch.optim"]),
  ([], .assign "X" "torch.randn(100, 1)" [pCallA "torch.randn" [.num 100, .num 1]]),
  ([], .assign "y" "2 * X + 1 + 0.1 * torch.randn(100, 1)" [pCallA "torch.randn" [.num 100, .num 1]]),
  ([], .assign "model" "nn.Linear(1, 1)" [pCallA "nn.Linear" [.num 1, .num 1]]),
  ([], .assign "criterion" "nn.MSELoss()" [pCall "nn.MSELoss"]),
  ([], .assign "optimizer" "optim.SGD(model.parameters(), lr=0.01)"
      [pCallK "optim.SGD" [.raw "model.parameters()"] [("lr", .raw "0.01")], pCall "model.parameters"]),
  ([], .exprStmt "wandb.init(project=interactive-tutorial, config=...)"
      [pCallK "wandb.init" []
        [("project", .str "interactive-tutorial"),
         ("config", .raw "dict: learning_rate 0.01, epochs 100, batch_size 32")]]),
  ([], .forHeader "epoch" (.rangeExpr "wandb.config.epochs")),
  ([.inForCtx], .exprStmt "optimizer.zero_grad()" [pCall "optimizer.zero_grad"]),
  ([.inForCtx], .assign "outputs" "model(X)" [pCallA "model" [.raw "X"]]),
  ([.inForCtx], .assign "loss" "criterion(outputs, y)" [pCallA "criterion" [.raw "outputs", .raw "y"]]),
  ([.inForCtx], .exprStmt "loss.backward()" [pCall "loss.backward"]),
  ([.inForCtx], .exprStmt "optimizer.step()" [pCall "optimizer.step"]),
  ([.inForCtx], .exprStmt "wandb.log(dict: loss, weight, bias)"
      [pCallK "wandb.log" []
        [("loss", .raw "loss.item()"), ("weight", .raw "model.weight.item()"), ("bias", .raw "model.bias.item()")],
       pCall "loss.item", pCall "model.weight.item", pCall "model.bias.item"]),
  ([], .exprStmt "wandb.finish()" [pCall "wandb.finish"])]

/-- Code cell 8 of the W&B tutorial notebook: advanced tracking (plot,
watch, table). -/
def wandbCell8 : List SrcStmt := mkCell wandbNb 8 [
  ([], .importMods ["matplotlib.pyplot"]),
  ([], .exprStmt "wandb.init(project=interactive-tutorial, name=advanced-tracking, config=...)"
      [pCallK "wandb.init" []
        [("project", .str "interactive-tutorial"), ("name", .str "advanced-tracking"),
         ("config", .raw "dict: architecture LinearRegression, dataset synthetic, learning_rate 0.01")]]),
  ([], .exprStmt "plt.figure(figsize=(10, 6))" [pCallK "plt.figure" [] [("figsize", .raw "(10, 6)")]]),
  ([], .exprStmt "plt.scatter(X.numpy(), y.numpy(), label=True Data)"
      [pCallK "plt.scatter" [.raw "X.numpy()", .raw "y.numpy()"] [("label", .str "True Data")],
       pCall "X.numpy", pCall "y.numpy"]),
  ([], .exprStmt "plt.plot(X.numpy(), model(X).detach().numpy(), r, label=Prediction)"
      [pCallK "plt.plot" [.raw "X.numpy()", .raw "model(X).detach().numpy()", .str "r"]
        [("label", .str "Prediction")],
       pCall "model(X).detach", pCall ".numpy"]),
  ([], .exprStmt "plt.legend()" [pCall "plt.legend"]),
  ([], .exprStmt "plt.title(Regression Results)" [pCallA "plt.title" [.str "Regression Results"]]),
  ([], .exprStmt "wandb.log(dict: regression_plot = wandb.Image(plt))"
      [pCallK "wandb.log" [] [("regression_plot", .raw "wandb.Image(plt)")], pCallA "wandb.Image" [.raw "plt"]]),
  ([], .exprStmt "wandb.watch(model)" [pCallA "wandb.watch" [.raw "model"]]),
  ([], .compAssign "data" "x, y_, pred" (.zipOf "zip(X[:5], y[:5], model(X[:5]))")
      "[[x.item(), y_.item(), pred.item()] for x, y_, pred in zip(X[:5], y[:5], model(X[:5]))]"
      [pCall "zip", pCall "x.item", pCall "y_.item", pCall "pred.item", pCallA "model" [.raw "X[:5]"]]),
  ([], .assign "table" "wandb.Table(data=data, columns=[input, true, predicted])"
      [pCallK "wandb.Table" [] [("data", .raw "data"), ("columns", .raw "[input, true, predicted]")]]),
  ([], .exprStmt "wandb.log(dict: predictions = table)" [pCallK "wandb.log" [] [("predictions", .raw "table")]]),
  ([], .exprStmt "wandb.finish()" [pCall "wandb.finish"])]

/-- Code cell 10 of the W&B tutorial notebook: sweep configuration, the
sweep `train_model`, and the agent run. -/
def wandbCell10 : List SrcStmt := mkCell wandbNb 10 [
  ([], .assign "sweep_configuration"
      "dict: method random, metric (name loss, goal minimize), parameters (learning_rate values [0.001, 0.01, 0.1], batch_size values [16, 32, 64], epochs value 50)" []),
  ([], .assign "sweep_id" "wandb.sweep(sweep_configuration, project=interactive-tutorial)"
      [pCallK "wandb.sweep" [.raw "sweep_configuration"] [("project", .str "interactive-tutorial")]]),
  ([], .funcHeader "train_model" []),
  ([.inFunc "train_model"], .exprStmt "wandb.init()" [pCall "wandb.init"]),
  ([.inFunc "train_model"], .assign "model" "nn.Linear(1, 1)" [pCallA "nn.Linear" [.num 1, .num 1]]),
  ([.inFunc "train_model"], .assign "criterion" "nn.MSELoss()" [pCall "nn.MSELoss"]),
  ([.inFunc "train_model"], .assign "optimizer" "optim.SGD(model.parameters(), lr=wandb.config.learning_rate)"
      [pCallK "optim.SGD" [.raw "model.parameters()"] [("lr", .raw "wandb.config.learning_rate")],
       pCall "model.parameters"]),
  ([.inFunc "train_model"], .forHeader "epoch" (.rangeExpr "wandb.config.epochs")),
  ([.inFunc "train_model", .inForCtx], .exprStmt "optimizer.zero_grad()" [pCall "optimizer.zero_grad"]),
  ([.inFunc "train_model", .inForCtx], .assign "outputs" "model(X)" [pCallA "model" [.raw "X"]]),
  ([.inFunc "train_model", .inForCtx], .assign "loss" "criterion(outputs, y)"
      [pCallA "criterion" [.raw "outputs", .raw "y"]]),
  ([.inFunc "train_model", .inForCtx], .exprStmt "loss.backward()" [pCall "loss.backward"]),
  ([.inFunc "train_model", .inForCtx], .exprStmt "optimizer.step()" [pCall "optimizer.step"]),
  ([.inFunc "train_model", .inForCtx], .exprStmt "wandb.log(dict: loss = loss.item())"
      [pCallK "wandb.log" [] [("loss", .raw "loss.item()")], pCall "loss.item"]),
  ([], .exprStmt "wandb.agent(sweep_id, function=train_model, count=5)"
      [pCallK "wandb.agent" [.raw "sweep_id"] [("function", .raw "train_model"), ("count", .num 5)]])]

/-- All transcribed statements of the W&B tutorial notebook, in source order. -/
def wandbStmts : List SrcStmt :=
  wandbCell2 ++ wandbCell4 ++ wandbCell6 ++ wandbCell8 ++ wandbCell10

/-- Every transcribed statement of the repository, in source order. -/
def repoStmts : List SrcStmt := cifarStmts ++ gpuStmts ++ setupStmts ++ wandbStmts

/-- Whether `pat` occurs at the head of `hay` (on character lists). -/
def leadMatch : List Char → List Char → Bool
  | [], _ => true
  | _ :: _, [] => false
  | a :: as, b :: bs => a = b && leadMatch as bs

/-- Whether `pat` occurs anywhere inside `hay` (on character lists). -/
def subMatch (pat : List Char) : List Char → Bool
  | [] => leadMatch pat []
  | c :: rest => leadMatch pat (c :: rest) || subMatch pat rest

/-- Substring test on strings. -/
def strHasSub (hay pat : String) : Bool := subMatch pat.toList hay.toList

/-- The calls recorded in a transcribed statement. -/
def PyStmt.callList : PyStmt → List Call
  | .assign _ _ cs => cs
  | .augAssign _ _ _ cs => cs
  | .exprStmt _ cs => cs
  | .whileHeader _ cs => cs
  | .ifHeader _ cs => cs
  | .elifHeader _ cs => cs
  | .withHeader _ cs => cs
  | .compAssign _ _ _ _ cs => cs
  | .genExpr _ _ _ cs => cs
  | .ret _ cs => cs
  | _ => []

/-- The code text recorded in a loop domain. -/
def Dom.codeText : Dom → String
  | .rangeExpr s => s
  | .zipOf s => s
  | .localList n => n
  | .enumLoader n => n
  | .dataLoaderBatches n => n
  | .rangeConst _ => ""

/-- The code text of an argument value (`str` literals are prose, not code). -/
def KwVal.codeText : KwVal → String
  | .raw c => c
  | _ => ""

/-- All code texts of a call: its callee and the code of its arguments. -/
def Call.codeTexts (c : Call) : List String :=
  c.callee :: (c.args.map KwVal.codeText ++ c.kwargs.map (fun kv => kv.2.codeText))

/-- All code texts appearing in a transcribed statement (excluding the
contents of Python string literals, which are prose). -/
def PyStmt.codeTexts : PyStmt → List String
  | .importMods ms => ms
  | .assign t s cs => t :: s :: cs.flatMap Call.codeTexts
  | .augAssign t _ s cs => t :: s :: cs.flatMap Call.codeTexts
  | .exprStmt s cs => s :: cs.flatMap Call.codeTexts
  | .forHeader v d => [v, d.codeText]
  | .whileHeader c cs => c :: cs.flatMap Call.codeTexts
  | .ifHeader c cs => c :: cs.flatMap Call.codeTexts
  | .elifHeader c cs => c :: cs.flatMap Call.codeTexts
  | .elseHeader => []
  | .tryHeader => []
  | .exceptHeader e b => [e, b]
  | .withHeader s cs => s :: cs.flatMap Call.codeTexts
  | .funcHeader n ps => n :: ps
  | .classHeader n bs => n :: bs
  | .compAssign t v d s cs => t :: v :: d.codeText :: s :: cs.flatMap Call.codeTexts
  | .genExpr v d s cs => v :: d.codeText :: s :: cs.flatMap Call.codeTexts
  | .shellEscape c => [c]
  | .ret s cs => s :: cs.flatMap Call.codeTexts
  | .delStmt t => [t]

/-- Whether any of the given code texts contains any of the given markers. -/
def mentionsAny (texts : List String) (pats : List String) : Bool :=
  texts.any (fun t => pats.any (fun p => strHasSub t p))

/-- The keyword argument named `k` of a call, when present. -/
def lookupKw (c : Call) (k : String) : Option KwVal :=
  ((c.kwargs.filter (fun kv => kv.1 == k)).map (fun kv => kv.2)).head?

/-- All calls of the repository. -/
def allRepoCalls : List Call := repoStmts.flatMap (fun s => s.st.callList)

/-- The name of the innermost enclosing function of a statement. -/
def SrcStmt.funcName (s : SrcStmt) : String :=
  (s.ctx.filterMap (fun c => match c with | .inFunc n => some n | _ => none)).headD ""

/-- Whether the statement is an `except` clause header. -/
def PyStmt.isExceptHeader : PyStmt → Bool
  | .exceptHeader _ _ => true
  | _ => false

/-- Every `except` clause header of the repository. -/
def exceptHandlers : List SrcStmt := repoStmts.filter (fun s => s.st.isExceptHeader)

/-- The statements inside the except handler of the named function. -/
def handlerBody (fn : String) : List PyStmt :=
  (repoStmts.filter (fun s => s.ctx.contains CtxF.inHandler && s.funcName == fn)).map (fun s => s.st)

/-- The statements inside the try block of the named function. -/
def tryBodyOf (fn : String) : List PyStmt :=
  (repoStmts.filter (fun s => s.ctx.contains CtxF.inTryBody && s.funcName == fn)).map (fun s => s.st)

/-- Whether the statement is a notebook shell escape (a `!command` line,
which launches a subprocess running the command). -/
def SrcStmt.isShell (s : SrcStmt) : Bool :=
  match s.st with
  | .shellEscape _ => true
  | _ => false

/-- Whether the statement imports any of the given modules (exact match on
the transcribed module names). -/
def PyStmt.importsAnyOf (banned : List String) (st : PyStmt) : Bool :=
  match st with
  | .importMods ms => ms.any (fun m => banned.contains m)
  | _ => false

/-- Modules whose import brings in thread, subprocess, or async machinery
(Python code cannot use those APIs without importing one of them). -/
def concurrencyMods : List String :=
  ["threading", "multiprocessing", "subprocess", "asyncio", "concurrent.futures"]

/-- Call targets that create threads, subprocesses, or asynchronous tasks. -/
def concurrencyCallees : List String :=
  ["threading.Thread", "subprocess.Popen", "subprocess.run", "subprocess.call",
   "os.fork", "os.system", "asyncio.run", "asyncio.create_task"]

/-- Whether a call requests data-loader worker subprocesses
(`num_workers` nonzero makes `DataLoader` spawn that many worker
processes). -/
def Call.spawnsWorkers (c : Call) : Bool :=
  match lookupKw c "num_workers" with
  | some (.num n) => decide (n ≠ 0)
  | _ => false

/-- Whether a statement introduces concurrency: a shell escape (a
subprocess), an import of a thread/subprocess/async module, a call to a
thread/subprocess/async-task constructor, or a `DataLoader` constructed
with nonzero `num_workers`. -/
def SrcStmt.introducesConcurrency (s : SrcStmt) : Bool :=
  s.isShell || s.st.importsAnyOf concurrencyMods ||
    s.st.callList.any (fun c => concurrencyCallees.contains c.callee) ||
    s.st.callList.any Call.spawnsWorkers

/-- Every concurrency-introducing statement of the repository. -/
def concurrencyConstructs : List SrcStmt := repoStmts.filter SrcStmt.introducesConcurrency

/-- Modules whose import is required for the standard environment-variable
or argument-parsing APIs. -/
def envArgvMods : List String := ["os", "argparse", "getopt", "optparse", "click"]

/-- Call targets that read environment variables. -/
def envReadCallees : List String := ["os.getenv", "os.environ.get", "getenv"]

/-- Attribute-style reads of the environment or of argv, searched for as
substrings of every transcribed code text (these are not calls, so the
callee lists cannot catch them; `sys` is imported, so `sys.argv` must be
scanned for textually). -/
def envArgvMarkers : List String := ["sys.argv", "os.environ"]

/-- Whether a statement reads environment variables or command-line
arguments: an import of an env/argv module, a call to an env-reading
function, or an attribute-style `sys.argv`/`os.environ` read anywhere in
its code texts. -/
def SrcStmt.readsEnvArgv (s : SrcStmt) : Bool :=
  s.st.importsAnyOf envArgvMods ||
    s.st.callList.any (fun c => envReadCallees.contains c.callee) ||
    mentionsAny s.st.codeTexts envArgvMarkers

/-- Call targets that open, write, or lay out files on disk (every call in
a statement is recorded in its call list, so membership of the callee in
this list catches them, including nested calls like `open(...)`). -/
def fileApiCallees : List String :=
  ["open", "os.open", "io.open", "torch.save", "torch.load", "plt.savefig",
   "np.save", "np.savetxt", "json.dump", "json.load", "pickle.dump", "pickle.load",
   "shutil.copy", "os.makedirs", "os.mkdir", "os.remove"]

/-- Whether a statement touches the disk outside the external-library
dataset/logging calls: a direct file API call, or a shell escape (whose
command, here a pip install, writes into the Python environment). -/
def SrcStmt.touchesDisk (s : SrcStmt) : Bool :=
  s.isShell || s.st.callList.any (fun c => fileApiCallees.contains c.callee)

/-- Call targets that sleep, block, or wait. -/
def blockingCallees : List String := ["time.sleep", "sleep", "input"]

/-- Whether a statement calls a sleeping, blocking, or waiting primitive. -/
def SrcStmt.blocksOrWaits (s : SrcStmt) : Bool :=
  s.st.callList.any (fun c => blockingCallees.contains c.callee)

/-- Whether the statement is a `while` loop header. -/
def SrcStmt.isWhileLoop (s : SrcStmt) : Bool :=
  match s.st with
  | .whileHeader _ _ => true
  | _ => false

/-- The loop domain of a statement, when it is a loop or comprehension. -/
def PyStmt.loopDom : PyStmt → Option Dom
  | .forHeader _ d => some d
  | .compAssign _ _ d _ _ => some d
  | .genExpr _ d _ _ => some d
  | _ => none

/-- Every loop/comprehension domain of the repository. -/
def repoLoopDoms : List Dom := repoStmts.filterMap (fun s => s.st.loopDom)

/-- Every domain form appearing in the repository is a finite iterable:
`range` of a constant or of a runtime integer (`range` of any Python int is
finite), the batches of a `DataLoader` over a finite downloaded dataset
(also under `enumerate`), a literal or locally built finite list, or `zip`
of finite iterables. -/
def Dom.isFiniteDom : Dom → Bool
  | .rangeConst _ => true
  | .rangeExpr _ => true
  | .enumLoader _ => true
  | .dataLoaderBatches _ => true
  | .localList _ => true
  | .zipOf _ => true

/-- Every `class` statement of the repository. -/
def classHeaders : List SrcStmt :=
  repoStmts.filter (fun s => match s.st with | .classHeader _ _ => true | _ => false)

/-- The methods (function definitions) declared inside the named class. -/
def methodsOf (cls : String) : List String :=
  repoStmts.filterMap (fun s =>
    if s.ctx.contains (CtxF.inClass cls) then
      match s.st with
      | .funcHeader n _ => some n
      | _ => none
    else none)

/-- The `torchvision.datasets.CIFAR10` constructor calls of the repository. -/
def cifarDatasetCalls : List Call :=
  allRepoCalls.filter (fun c => c.callee == "torchvision.datasets.CIFAR10")

/-- The `torch.utils.data.DataLoader` constructor calls of the repository. -/
def dataLoaderCalls : List Call :=
  allRepoCalls.filter (fun c => c.callee == "torch.utils.data.DataLoader")

/-- The shell-escape commands of the repository. -/
def shellCmds : List String :=
  repoStmts.filterMap (fun s => match s.st with | .shellEscape c => some c | _ => none)

/-- Code cells of the CIFAR-10 notebook containing a CIFAR10 dataset
construction (with its download). -/
def cifarDownloadCells : List Nat :=
  (repoStmts.filter (fun s =>
    s.nb == cifarNb && s.st.callList.any (fun c => c.callee == "torchvision.datasets.CIFAR10"))).map
    (fun s => s.cell)

/-- Code cells of the CIFAR-10 notebook containing a class definition. -/
def cifarClassDefCells : List Nat :=
  (repoStmts.filter (fun s =>
    s.nb == cifarNb && (match s.st with | .classHeader _ _ => true | _ => false))).map
    (fun s => s.cell)

/-- Code cells of the CIFAR-10 notebook defining `train_model`. -/
def cifarTrainDefCells : List Nat :=
  (repoStmts.filter (fun s =>
    s.nb == cifarNb && (match s.st with | .funcHeader "train_model" _ => true | _ => false))).map
    (fun s => s.cell)

/-- Code cells of the CIFAR-10 notebook defining `visualize_predictions`. -/
def cifarVizCells : List Nat :=
  (repoStmts.filter (fun s =>
    s.nb == cifarNb && (match s.st with | .funcHeader "visualize_predictions" _ => true | _ => false))).map
    (fun s => s.cell)

/-- The one shell-escape statement of the repository (inside the except
handler of `check_wandb_installation`). -/
def wandbShellStmt : SrcStmt :=
  ⟨wandbNb, 2, [.inFunc "check_wandb_installation", .inHandler],
    .shellEscape "pip install wandb -q"⟩

/-!
Shallow model of the CIFAR-10 notebook's `train_model` (code cell 10).

The effect of the library calls on the network is abstracted into the
per-batch statistics the loop observes: for batch `i` of an epoch,
`loss.item()` (`loss`), `labels.size(0)` (`btotal`) and
`(predicted == labels).sum().item()` (`bcorrect`).  The loop's own logic —
the accumulators `running_loss`/`correct`/`total`, the `i % 100 == 99`
logging condition and the resets — is translated statement by statement.
-/

/-- The per-batch statistics observed by the training loop. -/
structure BatchStat where
  loss : ℚ
  bcorrect : ℚ
  btotal : ℚ
deriving DecidableEq

/-- One record logged by `wandb.log({"epoch": ..., "loss": ..., "accuracy": ...})`. -/
structure EpochLog where
  epoch : ℕ
  loss : ℚ
  acc : ℚ
deriving DecidableEq

/-- The inner batch loop of `train_model`, returning the list of in-epoch
wandb log records it emits.  Arguments mirror the loop state: the
`enumerate` counter `i` and the accumulators `running_loss`, `correct`,
`total`; the remaining batches are the list being iterated. -/
def train_inner (epoch : ℕ) : ℕ → ℚ → ℚ → ℚ → List BatchStat → List EpochLog
  | _, _, _, _, [] => []
  | i, running_loss, correct, total, b :: bs =>
    let running_loss := running_loss + b.loss
    let total := total + b.btotal
    let correct := correct + b.bcorrect
    if i % 100 = 99 then
      ⟨epoch, running_loss / 100, 100 * correct / total⟩ :: train_inner epoch (i + 1) 0 0 0 bs
    else
      train_inner epoch (i + 1) running_loss correct total bs

def sumLoss (w : List BatchStat) : ℚ := (w.map BatchStat.loss).sum

def sumCorrect (w : List BatchStat) : ℚ := (w.map BatchStat.bcorrect).sum

def sumTotal (w : List BatchStat) : ℚ := (w.map BatchStat.btotal).sum

/-- Modelled from the claim (C9's window description, not from the code):
the expected in-epoch logs, one per complete window of 100 consecutive
batches — the logged loss is the window's summed loss divided by 100 and
the logged accuracy is computed over exactly that window; batches after the
last complete window produce no log. -/
def windowLogsSpec (epoch : ℕ) (bs : List BatchStat) : List EpochLog :=
  if h : 100 ≤ bs.length then
    ⟨epoch, sumLoss (bs.take 100) / 100,
      100 * sumCorrect (bs.take 100) / sumTotal (bs.take 100)⟩ ::
      windowLogsSpec epoch (bs.drop 100)
  else []
termination_by bs.length
decreasing_by simp [List.length_drop]; omega

/-- Events emitted by one run of `train_model`: an in-epoch metrics log, a
call to `evaluate_model`, a `test_accuracy` log, a `wandb.finish` call. -/
inductive TEvent where
  | inLog (l : EpochLog)
  | evalCall
  | testLog (v : ℚ)
  | finishCall
deriving DecidableEq

/-- The per-epoch body of `train_model`: run the batch loop (emitting its
logs), then call `evaluate_model` and log its result under
`test_accuracy`.  `batches e` are the stats of epoch `e`'s batches and
`testAcc e` the test accuracy `evaluate_model` returns after epoch `e`. -/
def epoch_events (batches : ℕ → List BatchStat) (testAcc : ℕ → ℚ) (epoch : ℕ) : List TEvent :=
  (train_inner epoch 0 0 0 0 (batches epoch)).map TEvent.inLog ++
    [TEvent.evalCall, TEvent.testLog (testAcc epoch)]

/-- The event trace of `train_model(epochs)`: the epoch loop over
`range(epochs)`, then the single `wandb.finish()` call. -/
def train_model (batches : ℕ → List BatchStat) (testAcc : ℕ → ℚ) (epochs : ℕ) : List TEvent :=
  ((List.range epochs).map (epoch_events batches testAcc)).flatten ++ [TEvent.finishCall]

def TEvent.isEval : TEvent → Bool
  | .evalCall => true
  | _ => false

def TEvent.isTestLog : TEvent → Bool
  | .testLog _ => true
  | _ => false

def TEvent.isFinish : TEvent → Bool
  | .finishCall => true
  | _ => false

theorem sumLoss_cons (b : BatchStat) (w : List BatchStat) :
    sumLoss (b :: w) = b.loss + sumLoss w := by
  simp [sumLoss]

theorem sumCorrect_cons (b : BatchStat) (w : List BatchStat) :
    sumCorrect (b :: w) = b.bcorrect + sumCorrect w := by
  simp [sumCorrect]

theorem sumTotal_cons (b : BatchStat) (w : List BatchStat) :
    sumTotal (b :: w) = b.btotal + sumTotal w := by
  simp [sumTotal]

/-- Consuming one window: starting `m` batches before the next logging
point (counter `i` with `i % 100 = 100 - m`), the inner loop logs once
after `m` more batches, with the accumulators extended by exactly those `m`
batches, and continues with reset accumulators; if fewer than `m` batches
remain, it emits nothing. -/
theorem train_inner_consume (epoch : ℕ) :
    ∀ (bs : List BatchStat) (m i : ℕ) (rl corr tot : ℚ),
      1 ≤ m → m ≤ 100 → i % 100 = 100 - m →
      train_inner epoch i rl corr tot bs =
        if m ≤ bs.length then
          ⟨epoch, (rl + sumLoss (bs.take m)) / 100,
            100 * (corr + sumCorrect (bs.take m)) / (tot + sumTotal (bs.take m))⟩ ::
            train_inner epoch (i + m) 0 0 0 (bs.drop m)
        else [] := by
  intro bs
  induction bs with
  | nil =>
    intro m i rl corr tot h1 _ _
    have hm : ¬ (m = 0) := by omega
    simp [train_inner, Nat.le_zero, hm]
  | cons b bs ih =>
    intro m i rl corr tot h1 h2 h3
    match m, h1 with
    | 1, _ =>
      have hc : i % 100 = 99 := by omega
      have hlen : (1 : ℕ) ≤ (b :: bs).length := by simp
      simp [train_inner, hc, hlen, sumLoss, sumCorrect, sumTotal]
    | (m'' + 2), _ =>
      have hne : ¬ (i % 100 = 99) := by omega
      have hstep : train_inner epoch i rl corr tot (b :: bs) =
          train_inner epoch (i + 1) (rl + b.loss) (corr + b.bcorrect) (tot + b.btotal) bs := by
        simp [train_inner, hne]
      rw [hstep, ih (m'' + 1) (i + 1) (rl + b.loss) (corr + b.bcorrect) (tot + b.btotal)
        (by omega) (by omega) (by omega)]
      by_cases hb : m'' + 1 ≤ bs.length
      · have hb2 : m'' + 2 ≤ (b :: bs).length := by simp; omega
        rw [if_pos hb, if_pos hb2]
        have hidx : i + 1 + (m'' + 1) = i + (m'' + 2) := by omega
        simp only [List.take_succ_cons, List.drop_succ_cons, sumLoss_cons,
          sumCorrect_cons, sumTotal_cons, hidx, add_assoc]
      · have hb2 : ¬ (m'' + 2 ≤ (b :: bs).length) := by simp at hb ⊢; omega
        rw [if_neg hb, if_neg hb2]

/-- From any window-start counter (`i % 100 = 0`) with zeroed accumulators,
the inner loop produces exactly the window logs of the claim. -/
theorem train_inner_windows_aux (epoch : ℕ) :
    ∀ (n : ℕ) (bs : List BatchStat) (i : ℕ), bs.length ≤ n → i % 100 = 0 →
      train_inner epoch i 0 0 0 bs = windowLogsSpec epoch bs := by
  intro n
  induction n with
  | zero =>
    intro bs i hlen _
    have : bs = [] := List.eq_nil_of_length_eq_zero (by omega)
    subst this
    rw [windowLogsSpec]
    simp [train_inner]
  | succ n ih =>
    intro bs i hlen hi
    have h := train_inner_consume epoch bs 100 i 0 0 0 (by omega) (le_refl 100) (by omega)
    rw [h, windowLogsSpec]
    by_cases hb : 100 ≤ bs.length
    · rw [if_pos hb, dif_pos hb]
      have hdrop : (bs.drop 100).length ≤ n := by
        simp [List.length_drop]; omega
      rw [ih (bs.drop 100) (i + 100) hdrop (by omega)]
      simp [zero_add]
    · rw [if_neg hb, dif_neg hb]

/-- Number of window logs: one per complete window of 100 batches. -/
theorem windowLogsSpec_length :
    ∀ (n : ℕ) (epoch : ℕ) (bs : List BatchStat), bs.length ≤ n →
      (windowLogsSpec epoch bs).length = bs.length / 100 := by
  intro n
  induction n with
  | zero =>
    intro epoch bs hlen
    have : bs = [] := List.eq_nil_of_length_eq_zero (by omega)
    subst this
    rw [windowLogsSpec]
    simp
  | succ n ih =>
    intro epoch bs hlen
    rw [windowLogsSpec]
    by_cases hb : 100 ≤ bs.length
    · rw [dif_pos hb]
      have hdrop : (bs.drop 100).length ≤ n := by
        simp [List.length_drop]; omega
      simp only [List.length_cons, ih epoch (bs.drop 100) hdrop, List.length_drop]
      omega
    · rw [dif_neg hb]
      simp
      omega

theorem epoch_events_count_eval (batches : ℕ → List BatchStat) (testAcc : ℕ → ℚ) (e : ℕ) :
    (epoch_events batches testAcc e).countP TEvent.isEval = 1 := by
  simp [epoch_events, List.countP_append, List.countP_map, Function.comp,
    TEvent.isEval, List.countP_cons]

theorem epoch_events_count_testLog (batches : ℕ → List BatchStat) (testAcc : ℕ → ℚ) (e : ℕ) :
    (epoch_events batches testAcc e).countP TEvent.isTestLog = 1 := by
  simp [epoch_events, List.countP_append, List.countP_map, Function.comp,
    TEvent.isTestLog, List.countP_cons]

theorem epoch_events_count_finish (batches : ℕ → List BatchStat) (testAcc : ℕ → ℚ) (e : ℕ) :
    (epoch_events batches testAcc e).countP TEvent.isFinish = 0 := by
  simp [epoch_events, List.countP_append, List.countP_map, Function.comp,
    TEvent.isFinish, List.countP_cons]

theorem train_core_count_eval (batches : ℕ → List BatchStat) (testAcc : ℕ → ℚ) (epochs : ℕ) :
    (((List.range epochs).map (epoch_events batches testAcc)).flatten).countP TEvent.isEval = epochs := by
  induction epochs with
  | zero => simp
  | succ n ih =>
    simp [List.range_succ, List.countP_append, ih, epoch_events_count_eval]

theorem train_core_count_testLog (batches : ℕ → List BatchStat) (testAcc : ℕ → ℚ) (epochs : ℕ) :
    (((List.range epochs).map (epoch_events batches testAcc)).flatten).countP TEvent.isTestLog = epochs := by
  induction epochs with
  | zero => simp
  | succ n ih =>
    simp [List.range_succ, List.countP_append, ih, epoch_events_count_testLog]

theorem train_core_count_finish (batches : ℕ → List BatchStat) (testAcc : ℕ → ℚ) (epochs : ℕ) :
    (((List.range epochs).map (epoch_events batches testAcc)).flatten).countP TEvent.isFinish = 0 := by
  induction epochs with
  | zero => simp
  | succ n ih =>
    simp [List.range_succ, List.countP_append, ih, epoch_events_count_finish]

/-!
Shallow model of the CIFAR-10 notebook's `evaluate_model` (code cell 12).

A test batch is a list of (image, label) pairs with labels in `Fin 10`; the
model is abstracted as a function from images to the row of 10 output
scores, and `torch.max(outputs.data, 1)` as the index of the row's first
maximal score.  Failures of the Python code are modelled by `Option.none`:
indexing the `squeeze()`d correctness tensor when the batch has exactly one
sample (squeezing a length-1 dimension yields a 0-dimensional tensor whose
indexing raises), and the two zero divisions (`class_total[i]` of an unseen
class in the per-class accuracy prints, and `total` when the test stream is
empty).  Python float arithmetic on these small whole numbers is modelled
exactly in `ℚ`.
-/

def argmaxGo : List ℚ → ℚ → ℕ → ℕ → ℕ
  | [], _, bi, _ => bi
  | y :: ys, best, bi, i =>
    if best < y then argmaxGo ys y i (i + 1) else argmaxGo ys best bi (i + 1)

/-- Index of the first maximal entry of a score row, as `torch.max(..., 1)`
returns per row. -/
def argmaxIdx : List ℚ → ℕ
  | [] => 0
  | x :: xs => argmaxGo xs x 0 1

/-- The accumulators of `evaluate_model`: `correct`, `total`,
`class_correct`, `class_total` (the latter two are Python float lists that
only ever hold whole numbers here). -/
structure EvalSt where
  correct : ℕ
  total : ℕ
  class_correct : List ℕ
  class_total : List ℕ
deriving DecidableEq

/-- The initial accumulators (`0`, `0`, `list(0. for i in range(10))` twice). -/
def evalInit : EvalSt := ⟨0, 0, List.replicate 10 0, List.replicate 10 0⟩

/-- `l[i] += d` on a Python list. -/
def bump (l : List ℕ) (i : ℕ) (d : ℕ) : List ℕ := l.set i (l.getD i 0 + d)

/-- Indexing `c[i]` after `c = (...).squeeze()`: squeezing a length-1
correctness vector yields a 0-dimensional tensor, whose integer indexing
raises; otherwise it is ordinary list indexing. -/
def squeezeGet (c : List Bool) (i : ℕ) : Option Bool :=
  if c.length = 1 then none else c.get? i

/-- The inner `for i in range(len(labels))` loop of `evaluate_model`,
updating the per-class accumulators. -/
def classLoop (c : List Bool) (labels : List (Fin 10)) : List ℕ → EvalSt → Option EvalSt
  | [], st => some st
  | i :: rest, st =>
    match labels.get? i, squeezeGet c i with
    | some label, some ci =>
      classLoop c labels rest
        { st with
          class_correct := bump st.class_correct label.val (if ci then 1 else 0),
          class_total := bump st.class_total label.val 1 }
    | _, _ => none

/-- Processing one test batch: compute predictions, add `labels.size(0)`
to `total` and `(predicted == labels).sum().item()` to `correct`, then run
the per-class loop over `range(len(labels))` on the squeezed correctness
vector. -/
def procBatch {α : Type} (model : α → List ℚ) (st : EvalSt) (batch : List (α × Fin 10)) :
    Option EvalSt :=
  let predicted := batch.map (fun s => argmaxIdx (model s.1))
  let labels := batch.map (fun s => s.2)
  let c := List.zipWith (fun p (l : Fin 10) => p == l.val) predicted labels
  let st1 := { st with
    total := st.total + labels.length,
    correct := st.correct + c.countP id }
  classLoop c labels (List.range labels.length) st1

/-- The `for data in testloader` loop of `evaluate_model`. -/
def evalBatches {α : Type} (model : α → List ℚ) :
    List (List (α × Fin 10)) → EvalSt → Option EvalSt
  | [], st => some st
  | b :: bs, st =>
    match procBatch model st b with
    | some st2 => evalBatches model bs st2
    | none => none

/-- The per-class accuracy print loop divides by every `class_total[i]`,
`i < 10`; it succeeds exactly when all ten are nonzero. -/
def classAccPrintOk (st : EvalSt) : Bool :=
  (List.range 10).all (fun i => st.class_total.getD i 0 ≠ 0)

/-- `evaluate_model` over a test stream of batches: run the batch loop,
perform the per-class accuracy prints, and return `100 * correct / total`. -/
def evaluate_model {α : Type} (model : α → List ℚ) (testBatches : List (List (α × Fin 10))) :
    Option ℚ :=
  match evalBatches model testBatches evalInit with
  | none => none
  | some st =>
    if classAccPrintOk st then
      if st.total = 0 then none
      else some (100 * (st.correct : ℚ) / (st.total : ℚ))
    else none

/-- The number of test samples whose predicted class (the argmax of the
model's output row) equals their label. -/
def correctCount {α : Type} (model : α → List ℚ) (bs : List (List (α × Fin 10))) : ℕ :=
  bs.flatten.countP (fun s => argmaxIdx (model s.1) == s.2.val)

/-- The total number of test samples. -/
def totalCount {α : Type} (bs : List (List (α × Fin 10))) : ℕ := bs.flatten.length

/-- The number of test samples with label `j`. -/
def labelCount {α : Type} (bs : List (List (α × Fin 10))) (j : ℕ) : ℕ :=
  bs.flatten.countP (fun s => s.2.val == j)

theorem bump_length (l : List ℕ) (i d : ℕ) : (bump l i d).length = l.length := by
  simp [bump]

theorem bump_getD (l : List ℕ) (i d j : ℕ) (hi : i < l.length) :
    (bump l i d).getD j 0 = if i = j then l.getD j 0 + d else l.getD j 0 := by
  by_cases h : i = j
  · subst h
    simp [bump, List.getD_eq_getElem?_getD, List.getElem?_set, hi]
  · simp [bump, List.getD_eq_getElem?_getD, List.getElem?_set, h]

theorem zipWith_map_same {α β γ δ : Type} (f : β → γ → δ) (g : α → β) (h : α → γ)
    (l : List α) :
    List.zipWith f (l.map g) (l.map h) = l.map (fun x => f (g x) (h x)) := by
  induction l with
  | nil => rfl
  | cons a l ih => simp [ih]

/-- Counting over index ranges equals counting over the suffix of the
indexed list. -/
theorem countP_range'_get {β : Type} (p : β → Bool) (L : List β) :
    ∀ (m i : ℕ), i + m = L.length →
      (List.range' i m).countP (fun k => (L.get? k).any p) = (L.drop i).countP p := by
  intro m
  induction m with
  | zero =>
    intro i hi
    have : L.drop i = [] := by
      apply List.drop_eq_nil_of_le
      omega
    simp [this]
  | succ m ih =>
    intro i hi
    have hlt : i < L.length := by omega
    have hdrop : L.drop i = L[i] :: L.drop (i + 1) := List.drop_eq_getElem_cons hlt
    rw [List.range'_succ, List.countP_cons, hdrop, List.countP_cons, ih (i + 1) (by omega)]
    have : (L.get? i).any p = p L[i] := by
      rw [List.get?_eq_getElem?, List.getElem?_eq_getElem hlt]
      rfl
    rw [this]

/-- The per-class loop of `evaluate_model` succeeds whenever the squeezed
correctness vector keeps its batch dimension (batch size not 1), leaving
`correct`/`total` unchanged and adding to `class_total[j]` the number of
iterated indices whose label is `j`. -/
theorem classLoop_spec (c : List Bool) (labels : List (Fin 10))
    (hc : c.length = labels.length) (hne : labels.length ≠ 1) :
    ∀ (m i : ℕ) (st : EvalSt), i + m = labels.length → st.class_total.length = 10 →
      ∃ st2, classLoop c labels (List.range' i m) st = some st2 ∧
        st2.correct = st.correct ∧
        st2.total = st.total ∧
        st2.class_total.length = 10 ∧
        ∀ j, st2.class_total.getD j 0 =
          st.class_total.getD j 0 +
            (List.range' i m).countP (fun k => (labels.get? k).any (fun l => l.val == j)) := by
  intro m
  induction m with
  | zero =>
    intro i st _ hst
    exact ⟨st, by simp [classLoop], rfl, rfl, hst, by simp⟩
  | succ m ih =>
    intro i st hi hst
    have hlt : i < labels.length := by omega
    have hget : labels.get? i = some (labels.get ⟨i, hlt⟩) := by
      rw [List.get?_eq_get hlt]
    have hclt : i < c.length := by omega
    have hsq : squeezeGet c i = some (c.get ⟨i, hclt⟩) := by
      rw [squeezeGet, if_neg (by omega), List.get?_eq_get hclt]
    have hlab : (labels.get ⟨i, hlt⟩).val < st.class_total.length := by
      rw [hst]; exact (labels.get ⟨i, hlt⟩).isLt
    obtain ⟨st2, hrun, hcorr, htot, hlen10, hgetD⟩ :=
      ih (i + 1)
        { st with
          class_correct := bump st.class_correct (labels.get ⟨i, hlt⟩).val
            (if c.get ⟨i, hclt⟩ then 1 else 0),
          class_total := bump st.class_total (labels.get ⟨i, hlt⟩).val 1 }
        (by omega) (by simp [bump_length, hst])
    refine ⟨st2, ?_, hcorr, htot, hlen10, ?_⟩
    · rw [List.range'_succ, classLoop, hget, hsq]
      exact hrun
    · intro j
      rw [List.range'_succ, List.countP_cons, hgetD j]
      simp only [bump_getD st.class_total (labels.get ⟨i, hlt⟩).val 1 j hlab, hget]
      by_cases hj : (labels.get ⟨i, hlt⟩).val = j
      all_goals simp only [List.get_eq_getElem] at hj
      all_goals simp [hj, Option.any]
      all_goals omega

/-- Processing one batch of size ≠ 1 succeeds and adjusts every accumulator
by exactly the batch's contribution. -/
theorem procBatch_spec {α : Type} (model : α → List ℚ) (st : EvalSt)
    (b : List (α × Fin 10)) (hb : b.length ≠ 1) (hst : st.class_total.length = 10) :
    ∃ st2, procBatch model st b = some st2 ∧
      st2.correct = st.correct + b.countP (fun s => argmaxIdx (model s.1) == s.2.val) ∧
      st2.total = st.total + b.length ∧
      st2.class_total.length = 10 ∧
      ∀ j, st2.class_total.getD j 0 =
        st.class_total.getD j 0 + b.countP (fun s => s.2.val == j) := by
  have hzip : List.zipWith (fun p (l : Fin 10) => p == l.val)
      (b.map (fun s => argmaxIdx (model s.1))) (b.map (fun s => s.2)) =
      b.map (fun s => argmaxIdx (model s.1) == s.2.val) :=
    zipWith_map_same _ _ _ b
  have hclen : (b.map (fun s => argmaxIdx (model s.1) == s.2.val)).length =
      (b.map (fun s => (s.2 : Fin 10))).length := by simp
  have hllen : (b.map (fun s => (s.2 : Fin 10))).length = b.length := by simp
  obtain ⟨st2, hrun, hcorr, htot, hlen10, hgetD⟩ :=
    classLoop_spec (b.map (fun s => argmaxIdx (model s.1) == s.2.val))
      (b.map (fun s => (s.2 : Fin 10))) hclen (by rw [hllen]; exact hb)
      (b.map (fun s => (s.2 : Fin 10))).length 0
      { st with
        total := st.total + (b.map (fun s => (s.2 : Fin 10))).length,
        correct := st.correct + (b.map (fun s => argmaxIdx (model s.1) == s.2.val)).countP id }
      (by omega) (by simpa using hst)
  refine ⟨st2, ?_, ?_, ?_, hlen10, ?_⟩
  · rw [procBatch, hzip]
    rw [List.range_eq_range']
    exact hrun
  · rw [hcorr]
    simp [List.countP_map, Function.comp]
  · rw [htot, hllen]
  · intro j
    rw [hgetD j]
    have hcnt := countP_range'_get (fun (l : Fin 10) => l.val == j)
      (b.map (fun s => (s.2 : Fin 10))) (b.map (fun s => (s.2 : Fin 10))).length 0 (by omega)
    simp only [List.drop_zero] at hcnt
    simp only [hcnt, List.countP_map, Function.comp]
    rfl

/-- The test-loader loop of `evaluate_model` succeeds over any stream of
batches none of which has exactly one sample, and its final accumulators
are the stream's counts. -/
theorem evalBatches_spec {α : Type} (model : α → List ℚ) :
    ∀ (bs : List (List (α × Fin 10))) (st : EvalSt),
      (∀ b ∈ bs, b.length ≠ 1) → st.class_total.length = 10 →
      ∃ st2, evalBatches model bs st = some st2 ∧
        st2.correct = st.correct + correctCount model bs ∧
        st2.total = st.total + totalCount bs ∧
        st2.class_total.length = 10 ∧
        ∀ j, st2.class_total.getD j 0 = st.class_total.getD j 0 + labelCount bs j := by
  intro bs
  induction bs with
  | nil =>
    intro st _ hst
    exact ⟨st, by simp [evalBatches], by simp [correctCount], by simp [totalCount], hst,
      by simp [labelCount]⟩
  | cons b bs ih =>
    intro st hlen hst
    obtain ⟨st1, hrun1, hcorr1, htot1, hlen1, hgetD1⟩ :=
      procBatch_spec model st b (hlen b (by simp)) hst
    obtain ⟨st2, hrun2, hcorr2, htot2, hlen2, hgetD2⟩ :=
      ih st1 (fun x hx => hlen x (by simp [hx])) hlen1
    refine ⟨st2, ?_, ?_, ?_, hlen2, ?_⟩
    · rw [evalBatches, hrun1]
      exact hrun2
    · rw [hcorr2, hcorr1]
      simp [correctCount, List.countP_append]
      omega
    · rw [htot2, htot1]
      simp [totalCount]
      omega
    · intro j
      rw [hgetD2 j, hgetD1 j]
      simp [labelCount, List.countP_append]
      omega

/-!
Shape semantics of `CIFAR10Net` (CIFAR-10 notebook, code cell 8).  The
layer parameters are transcribed from `__init__` and `forward` composes
their shape functions in the source's order.
-/

/-- `nn.Conv2d(in_channels, out_channels, kernel, padding=padding)`. -/
structure Conv2dP where
  in_channels : ℕ
  out_channels : ℕ
  kernel : ℕ
  padding : ℕ
deriving DecidableEq

/-- `nn.Linear(in_features, out_features)`. -/
structure LinearP where
  in_features : ℕ
  out_features : ℕ
deriving DecidableEq

/-- `self.conv1 = nn.Conv2d(3, 32, 3, padding=1)`. -/
def conv1 : Conv2dP := ⟨3, 32, 3, 1⟩

/-- `self.conv2 = nn.Conv2d(32, 64, 3, padding=1)`. -/
def conv2 : Conv2dP := ⟨32, 64, 3, 1⟩

/-- `self.conv3 = nn.Conv2d(64, 128, 3, padding=1)`. -/
def conv3 : Conv2dP := ⟨64, 128, 3, 1⟩

/-- `self.fc1 = nn.Linear(128 * 4 * 4, 512)`. -/
def fc1 : LinearP := ⟨128 * 4 * 4, 512⟩

/-- `self.fc2 = nn.Linear(512, 10)`. -/
def fc2 : LinearP := ⟨512, 10⟩

/-- A 4-dimensional tensor shape `(N, C, H, W)`. -/
abbrev TShape := ℕ × ℕ × ℕ × ℕ

/-- Output shape of a stride-1 2d convolution: channels must match and the
padded spatial extent must cover the kernel; each spatial size becomes
`h + 2*padding - kernel + 1`. -/
def conv2dShape (p : Conv2dP) : TShape → Option TShape
  | (n, c, h, w) =>
    if c = p.in_channels ∧ p.kernel ≤ h + 2 * p.padding ∧ p.kernel ≤ w + 2 * p.padding then
      some (n, p.out_channels, h + 2 * p.padding - p.kernel + 1, w + 2 * p.padding - p.kernel + 1)
    else none

/-- `nn.BatchNorm2d(features)` preserves the shape (channels must match). -/
def batchNormShape (features : ℕ) : TShape → Option TShape
  | (n, c, h, w) => if c = features then some (n, c, h, w) else none

/-- `torch.relu` preserves the shape. -/
def reluShape (s : TShape) : TShape := s

/-- `nn.MaxPool2d(2, 2)` halves each spatial size (floor division). -/
def poolShape : TShape → TShape
  | (n, c, h, w) => (n, c, h / 2, w / 2)

/-- Number of elements of a shape. -/
def numel : TShape → ℕ
  | (n, c, h, w) => n * c * h * w

/-- `x.view(-1, d)`: valid exactly when `d` divides the element count; the
inferred first dimension is `numel / d`. -/
def viewFlat (d : ℕ) (s : TShape) : Option (ℕ × ℕ) :=
  if d ∣ numel s then some (numel s / d, d) else none

/-- `nn.Linear` on a 2d input `(N, F)`: features must match `in_features`. -/
def linearShape (p : LinearP) : ℕ × ℕ → Option (ℕ × ℕ)
  | (n, f) => if f = p.in_features then some (n, p.out_features) else none

/-- `nn.Dropout` preserves the shape. -/
def dropoutShape (s : ℕ × ℕ) : ℕ × ℕ := s

/-- `torch.relu` on a 2d tensor preserves the shape. -/
def reluShape2 (s : ℕ × ℕ) : ℕ × ℕ := s

/-- The shape semantics of `CIFAR10Net.forward`, composed in the source's
order: three conv → batchnorm → relu → pool stages, the flattening view,
`fc1`, relu, dropout, `fc2`. -/
def CIFAR10Net_forward (x0 : TShape) : Option (ℕ × ℕ) :=
  (conv2dShape conv1 x0).bind fun x1 =>
  (batchNormShape 32 x1).bind fun x2 =>
  let x3 := poolShape (reluShape x2)
  (conv2dShape conv2 x3).bind fun x4 =>
  (batchNormShape 64 x4).bind fun x5 =>
  let x6 := poolShape (reluShape x5)
  (conv2dShape conv3 x6).bind fun x7 =>
  (batchNormShape 128 x7).bind fun x8 =>
  let x9 := poolShape (reluShape x8)
  (viewFlat (128 * 4 * 4) x9).bind fun x10 =>
  (linearShape fc1 x10).bind fun x11 =>
  let x12 := dropoutShape (reluShape2 x11)
  linearShape fc2 x12

/-!
Shallow model of `get_os_info` of the local-setup notebook (code cell 2),
and of a process start state, for the environment-independence claim.  The
host facts the `platform`/`sys` modules report are modelled by `HostInfo`;
the process environment variables and command-line arguments by `ProcEnv`.
-/

/-- What the `platform` module reports about the host. -/
structure HostInfo where
  osName : String
  macVer : String
  winVer : String
  hasLinuxDist : Bool
  linuxDist : String

/-- A process start state: environment variables and command-line
arguments. -/
structure ProcEnv where
  envVars : List (String × String)
  argv : List String

/-- `get_os_info` translated from the source: branch on
`platform.system()` and return the matching (name, version) pair. -/
def get_os_info (h : HostInfo) : String × String :=
  if h.osName = "Darwin" then ("MacOS", h.macVer)
  else if h.osName = "Windows" then ("Windows", h.winVer)
  else if h.osName = "Linux" then
    ("Linux", if h.hasLinuxDist then h.linuxDist else "Unknown")
  else ("Unknown", "Unknown")

/-- `get_os_info` as run in a full process state: the function reads only
the `platform` module's host facts, never `ProcEnv`. -/
def get_os_info_run (h : HostInfo) (_p : ProcEnv) : String × String := get_os_info h

/-- Claim C1 as stated over the embedding: there is exactly one except
handler in the repository, and the handler body of
`check_wandb_installation` performs nothing but printing and returning. -/
abbrev C1_claim_stated : Prop :=
  exceptHandlers.length = 1 ∧
  ((handlerBody "check_wandb_installation").all fun st =>
    match st with
    | .exprStmt _ cs => cs.all (fun c => c.callee == "print")
    | .ret _ _ => true
    | _ => false) = true

/-- C1 is false as stated: the repository has two import try/except
handlers, not one (`verify_setup` in the local-setup notebook also catches
ImportError), and the `check_wandb_installation` handler contains the shell
escape `pip install wandb -q`, a recovery action beyond printing. -/
theorem C1_counterexample : ¬ C1_claim_stated ∧ exceptHandlers.length = 2 ∧
    PyStmt.shellEscape "pip install wandb -q" ∈ handlerBody "check_wandb_installation" :=
  ⟨by decide, by decide, by decide⟩

/-- C1 (amended): the only explicit error handling anywhere in the
repository is two catch-and-print handlers around package imports, both
catching ImportError: `check_wandb_installation` (whose try block imports
wandb, prints the installed version and returns True, and whose handler
prints a message, runs `pip install wandb -q` through a shell escape and
returns False) and `verify_setup` (whose handler prints the missing-package
message and a pointer to the installation instructions); no other except
clause exists anywhere, so every other exception propagates uncaught. -/
theorem C1_amended :
    exceptHandlers.map (fun s => (s.nb, s.funcName)) =
      [(setupNb, "verify_setup"), (wandbNb, "check_wandb_installation")] ∧
    (exceptHandlers.all fun s =>
      match s.st with
      | .exceptHeader "ImportError" _ => true
      | _ => false) = true ∧
    tryBodyOf "check_wandb_installation" =
      [.importMods ["wandb"],
       .exprStmt "print(f W&B is installed (version <wandb.__version__>))" [pCall "print"],
       .ret "True" []] ∧
    handlerBody "check_wandb_installation" =
      [.exprStmt "print(W&B is not installed. Installing now...)"
         [pCallA "print" [.str "W&B is not installed. Installing now..."]],
       .shellEscape "pip install wandb -q",
       .ret "False" []] ∧
    handlerBody "verify_setup" =
      [.exprStmt "print(f Some packages are missing: <str(e)>)" [pCall "print", pCallA "str" [.raw "e"]],
       .exprStmt "print(Please follow the installation instructions above.)"
         [pCallA "print" [.str "Please follow the installation instructions above."]]] :=
  ⟨by decide, by decide, by decide, by decide, by decide⟩

/-- Claim C2 as stated over the embedding: no repository statement
introduces concurrency — no shell escape, no thread/subprocess/async API,
and no `DataLoader` with nonzero `num_workers`. -/
abbrev C2_claim_stated : Prop :=
  repoStmts.all (fun s => !(SrcStmt.introducesConcurrency s)) = true

/-- C2 is false as stated: the CIFAR-10 data-loading pipeline that the
claim itself names is constructed with `num_workers=2` on both loaders,
which makes each `DataLoader` spawn two worker subprocesses. -/
theorem C2_counterexample : ¬ C2_claim_stated ∧
    dataLoaderCalls.map (fun c => lookupKw c "num_workers") =
      [some (.num 2), some (.num 2)] :=
  ⟨by decide, by decide⟩

/-- C2 (amended): no repository code starts a thread or an asynchronous
task; the only subprocess-introducing constructs in the repository are the
two CIFAR-10 `DataLoader` constructions (cell 4), each requesting two
data-loading worker processes via `num_workers=2`, and the
`pip install wandb -q` shell escape of `check_wandb_installation` (cell 2
of the W&B notebook); everything else executes synchronously in the single
notebook process. -/
theorem C2_amended :
    concurrencyConstructs.map (fun s => (s.nb, s.cell)) =
      [(cifarNb, 4), (cifarNb, 4), (wandbNb, 2)] ∧
    dataLoaderCalls.map (fun c => lookupKw c "num_workers") =
      [some (.num 2), some (.num 2)] ∧
    shellCmds = ["pip install wandb -q"] :=
  ⟨by decide, by decide, by decide⟩

/-- C3: every loop in the repository ranges over a finite domain — there is
no `while` loop at all, every `for`/comprehension domain is one of the
finite forms (a constant or runtime-integer `range`, the batches of a data
loader over a finite dataset, a literal or locally built list, a `zip` of
finite iterables; 16 such domains in total), and no statement invokes a
blocking or waiting primitive — so, assuming every external library call
returns, every function terminates and each cell runs to completion or
raises. -/
theorem C3_termination :
    repoStmts.all (fun s => !(SrcStmt.isWhileLoop s)) = true ∧
    repoLoopDoms.all Dom.isFiniteDom = true ∧
    repoLoopDoms.length = 16 ∧
    repoStmts.all (fun s => !(SrcStmt.blocksOrWaits s)) = true :=
  ⟨by decide, by decide, by decide, by decide⟩

/-- C4: the repository defines exactly one class, `CIFAR10Net` in the
CIFAR-10 notebook, directly subclassing `nn.Module`, and its only methods
are the constructor `__init__` and a single `forward`. -/
theorem C4_single_class :
    classHeaders.map (fun s => (s.nb, s.st)) =
      [(cifarNb, .classHeader "CIFAR10Net" ["nn.Module"])] ∧
    methodsOf "CIFAR10Net" = ["__init__", "forward"] :=
  ⟨by decide, by decide⟩

/-- C5: the CIFAR-10 notebook performs dataset download (cell 4), the CNN
definition (cell 8), the training/evaluation loop (cell 10) and prediction
visualization (cell 14) in that order; and for every `epochs ≥ 0`, the
`train_model(epochs)` trace contains exactly `epochs` calls to
`evaluate_model`, exactly `epochs` logs of the key `test_accuracy` (one
after each epoch, by construction of `epoch_events`), and exactly one
`wandb.finish()`, which is the final event. -/
theorem C5_cifar_pipeline :
    (cifarDownloadCells = [4, 4] ∧ cifarClassDefCells = [8] ∧
      cifarTrainDefCells = [10] ∧ cifarVizCells = [14] ∧
      (4 : ℕ) < 8 ∧ (8 : ℕ) < 10 ∧ (10 : ℕ) < 14) ∧
    ∀ (batches : ℕ → List BatchStat) (testAcc : ℕ → ℚ) (epochs : ℕ),
      (train_model batches testAcc epochs).countP TEvent.isEval = epochs ∧
      (train_model batches testAcc epochs).countP TEvent.isTestLog = epochs ∧
      (train_model batches testAcc epochs).countP TEvent.isFinish = 1 ∧
      (train_model batches testAcc epochs).getLast? = some TEvent.finishCall := by
  constructor
  · exact ⟨by decide, by decide, by decide, by decide, by norm_num, by norm_num, by norm_num⟩
  · intro batches testAcc epochs
    refine ⟨?_, ?_, ?_, ?_⟩
    · simp [train_model, List.countP_append, train_core_count_eval batches testAcc epochs,
        List.countP_cons, TEvent.isEval]
    · simp [train_model, List.countP_append, train_core_count_testLog batches testAcc epochs,
        List.countP_cons, TEvent.isTestLog]
    · simp [train_model, List.countP_append, train_core_count_finish batches testAcc epochs,
        List.countP_cons, TEvent.isFinish]
    · simp [train_model, List.getLast?_concat]

/-- C6: no repository statement reads environment variables or command-line
arguments (no os.environ/getenv, sys.argv, argparse or similar appears
anywhere in the transcribed code), and the one host-dependent repository
function, `get_os_info`, yields identical results for any two process
start states that differ only in environment variables and argv. -/
theorem C6_env_args_independent :
    repoStmts.all (fun s => !(SrcStmt.readsEnvArgv s)) = true ∧
    ∀ (h : HostInfo) (p1 p2 : ProcEnv), get_os_info_run h p1 = get_os_info_run h p2 :=
  ⟨by decide, fun _ _ _ => rfl⟩

/-- Claim C7 as stated over the embedding: no repository statement touches
the disk outside the external dataset/logging library calls — no file API
call and no shell escape. -/
abbrev C7_claim_stated : Prop :=
  repoStmts.all (fun s => !(SrcStmt.touchesDisk s)) = true

/-- C7 is false as stated: the shell escape `pip install wandb -q` in
`check_wandb_installation` installs a package into the Python environment
on disk, persisted state beyond the dataset cache and the experiment-run
metadata that the claim enumerates as the only persisted state. -/
theorem C7_counterexample : ¬ C7_claim_stated ∧ shellCmds = ["pip install wandb -q"] := by
  refine ⟨?_, by decide⟩
  intro h
  have hmem : wandbShellStmt ∈ repoStmts := by decide
  have hfalse := List.all_eq_true.mp h wandbShellStmt hmem
  simp [SrcStmt.touchesDisk, SrcStmt.isShell, wandbShellStmt] at hfalse

/-- C7 (amended): no repository-defined code opens or writes any file or
defines any on-disk format itself — the repository's only disk-touching
statement beyond the external dataset download (whose cache root, the
string `./data`, is all the repository supplies, with `download=True`) and
the wandb logging calls is the `pip install wandb -q` shell escape of
`check_wandb_installation`, which installs a package into the Python
environment. -/
theorem C7_amended :
    (repoStmts.filter SrcStmt.touchesDisk).map (fun s => (s.nb, s.cell, s.st)) =
      [(wandbNb, 2, .shellEscape "pip install wandb -q")] ∧
    cifarDatasetCalls.map (fun c => lookupKw c "root") =
      [some (.str "./data"), some (.str "./data")] ∧
    cifarDatasetCalls.map (fun c => lookupKw c "download") =
      [some (.boolean true), some (.boolean true)] :=
  ⟨by decide, by decide, by decide⟩

/-- C9: the in-epoch wandb logs of `train_model` are exactly the per-window
logs — one log per complete window of 100 consecutive batches (the log
happens at batch indices `i` with `i % 100 = 99`), whose logged loss is the
sum of those 100 batches' losses divided by 100 and whose logged accuracy
is `100 * correct / total` over exactly those 100 batches (the accumulators
are reset after every log) — and batches after the last complete window
contribute to no in-epoch log, the number of logs being
`batches / 100` rounded down. -/
theorem C9_in_epoch_logging (epoch : ℕ) (bs : List BatchStat) :
    train_inner epoch 0 0 0 0 bs = windowLogsSpec epoch bs ∧
    (train_inner epoch 0 0 0 0 bs).length = bs.length / 100 := by
  have h := train_inner_windows_aux epoch bs.length bs 0 (le_refl _) (by omega)
  refine ⟨h, ?_⟩
  rw [h]
  exact windowLogsSpec_length bs.length epoch bs (le_refl _)

/-- C8: under the stated preconditions — nonempty test stream, every batch
of size at least two (so the squeezed correctness tensor `c` stays
indexable inside the per-sample loop), and at least one sample of every one
of the 10 classes (so no per-class accuracy print divides by zero) — every
division and index in `evaluate_model` is well-defined: it returns exactly
`100 * correct / total`, where `correct` counts the samples whose argmax
model output equals their label and `total` counts all samples, and the
returned value lies in [0, 100]. -/
theorem C8_evaluate_model_safe (α : Type) (model : α → List ℚ)
    (testBatches : List (List (α × Fin 10)))
    (hne : testBatches ≠ [])
    (hlen : ∀ b ∈ testBatches, 2 ≤ b.length)
    (hcov : ∀ j : Fin 10, ∃ b ∈ testBatches, ∃ s ∈ b, s.2 = j) :
    ∃ r, evaluate_model model testBatches = some r ∧
      r = 100 * (correctCount model testBatches : ℚ) / (totalCount testBatches : ℚ) ∧
      0 ≤ r ∧ r ≤ 100 := by
  have h1 : ∀ b ∈ testBatches, b.length ≠ 1 := by
    intro b hb
    have := hlen b hb
    omega
  obtain ⟨st2, hrun, hcorr, htot, _hlen10, hgetD⟩ :=
    evalBatches_spec model testBatches evalInit h1 (by simp [evalInit])
  have hcorr2 : st2.correct = correctCount model testBatches := by
    rw [hcorr]; simp [evalInit]
  have htot2 : st2.total = totalCount testBatches := by
    rw [htot]; simp [evalInit]
  obtain ⟨b0, rest, rfl⟩ : ∃ b0 rest, testBatches = b0 :: rest := by
    cases testBatches with
    | nil => exact absurd rfl hne
    | cons b r => exact ⟨b, r, rfl⟩
  have hb0 := hlen b0 (by simp)
  have htpos : 0 < totalCount (b0 :: rest) := by
    simp [totalCount]
    omega
  have hok : classAccPrintOk st2 = true := by
    rw [classAccPrintOk, List.all_eq_true]
    intro i hi
    have hi10 : i < 10 := List.mem_range.mp hi
    have hcnt : 0 < labelCount (b0 :: rest) i := by
      obtain ⟨b, hb, s, hs, hsj⟩ := hcov ⟨i, hi10⟩
      refine List.countP_pos_iff.mpr ⟨s, List.mem_flatten.mpr ⟨b, hb, hs⟩, ?_⟩
      simp [hsj]
    have hD := hgetD i
    have hz : evalInit.class_total.getD i 0 = 0 := by
      simp only [evalInit, List.getD_eq_getElem?_getD, List.getElem?_replicate, hi10,
        if_true, Option.getD_some]
    rw [hz, zero_add] at hD
    rw [List.getD_eq_getElem?_getD] at hD
    simp [hD]
    omega
  have htz : ¬ (st2.total = 0) := by
    rw [htot2]
    omega
  refine ⟨100 * (st2.correct : ℚ) / (st2.total : ℚ), ?_, ?_, ?_, ?_⟩
  · simp [evaluate_model, hrun, hok, htz]
  · rw [hcorr2, htot2]
  · positivity
  · rw [hcorr2, htot2]
    have htq : (0 : ℚ) < (totalCount (b0 :: rest) : ℚ) := by exact_mod_cast htpos
    rw [div_le_iff₀ htq]
    have hle : correctCount model (b0 :: rest) ≤ totalCount (b0 :: rest) := by
      rw [correctCount, totalCount]
      exact List.countP_le_length _
    have hleq : (correctCount model (b0 :: rest) : ℚ) ≤ (totalCount (b0 :: rest) : ℚ) := by
      exact_mod_cast hle
    linarith

/-- A concrete one-hot model used by the C8 witness. -/
def wModel : ℕ → List ℚ := fun n => (List.range 10).map (fun j => if j = n then (1 : ℚ) else 0)

/-- A concrete test stream for the C8 witness: two batches of five samples,
covering every class once. -/
def wBatches : List (List (ℕ × Fin 10)) :=
  [[(0, 0), (1, 1), (2, 2), (3, 3), (4, 4)], [(5, 5), (6, 6), (7, 7), (8, 8), (9, 9)]]

theorem C8_evaluate_model_safe_witness :
    ((wBatches ≠ []) ∧ (∀ b ∈ wBatches, 2 ≤ b.length) ∧
      (∀ j : Fin 10, ∃ b ∈ wBatches, ∃ s ∈ b, s.2 = j)) ∧
    ∃ r, evaluate_model wModel wBatches = some r ∧
      r = 100 * (correctCount wModel wBatches : ℚ) / (totalCount wBatches : ℚ) ∧
      0 ≤ r ∧ r ≤ 100 :=
  ⟨⟨by decide, by decide, by decide⟩,
    C8_evaluate_model_safe ℕ wModel wBatches (by decide) (by decide) (by decide)⟩

/-- C10: for every batch size `n`, `CIFAR10Net.forward` maps an input of
shape `(n, 3, 32, 32)` to an output of shape `(n, 10)`: each convolution
stage preserves the 32/16/8 spatial size (kernel 3, padding 1) and each
pool halves it, 32 → 16 → 8 → 4, so the flattening `view(-1, 128*4*4)` is
exact and the two linear layers map 2048 features to 512 and then to 10. -/
theorem C10_forward_shape (n : ℕ) :
    CIFAR10Net_forward (n, 3, 32, 32) = some (n, 10) ∧
    poolShape (n, 32, 32, 32) = (n, 32, 16, 16) ∧
    poolShape (n, 64, 16, 16) = (n, 64, 8, 8) ∧
    poolShape (n, 128, 8, 8) = (n, 128, 4, 4) ∧
    viewFlat (128 * 4 * 4) (n, 128, 4, 4) = some (n, 128 * 4 * 4) := by
  have hd : (2048 : ℕ) ∣ n * 128 * 4 * 4 := ⟨n, by ring⟩
  have hq : n * 128 * 4 * 4 / 2048 = n := by omega
  refine ⟨?_, ?_, ?_, ?_, ?_⟩
  · simp only [CIFAR10Net_forward, conv2dShape, batchNormShape, reluShape, poolShape,
      viewFlat, numel, linearShape, dropoutShape, reluShape2, conv1, conv2, conv3, fc1, fc2]
    norm_num [hd, hq]
  · rfl
  · rfl
  · rfl
  · simp only [viewFlat, numel]
    norm_num [hd, hq]
